import Mathlib

/- Shallow embedding of the SweetPi session/credit scheduler.

   Sources:
   - src/api/game.js    : session scheduler, timers, grab/move handling
   - src/unnamed/part_000 (db layer) : donation store operations
   - src/api/admin.js   : administrative operations on top of the scheduler

   Modelling conventions:
   - The persisted donation table is a `List Donation` kept in `created_at`
     order (the db only ever reads it `ORDER BY created_at ASC`); refreshing
     `created_at` (requeueToEnd, markIntentPaid) is modelled by moving the
     matching rows to the end of the list.
   - Wall-clock time is an explicit `now : Nat` argument wherever the code
     reads `Date.now()`; deadlines are stored as `Option Nat`.
   - Timer handles (`active.timer`, `active.firstMoveTimer`) are not state:
     per the concurrency model, cancellation is best-effort, so a timer
     callback is modelled as a function that may be applied to any later
     state, carrying the sequence number it captured at scheduling time.
   - gpio calls are recorded in a `pulses` trace; the `player-timeout`
     broadcast (the only event whose payload a claim inspects) is recorded
     in an `events` trace.  Other broadcasts carry no state.
-/

namespace SweetPi

inductive Status where
  | created
  | waiting
  | active
  | done
deriving DecidableEq, Repr

/-- One row of the `donations` table (the fields the scheduler core reads). -/
structure Donation where
  id : Nat
  creditsTotal : Int
  creditsUsed : Int
  creditsPulsed : Bool
  status : Status
deriving DecidableEq, Repr

abbrev Store := List Donation

/-- credits_total - credits_used, the "remaining credits" computed throughout game.js. -/
def remainingOf (d : Donation) : Int := d.creditsTotal - d.creditsUsed

/-- db setDonationStatus: UPDATE donations SET status = ? WHERE id = ?. -/
def setDonationStatus (store : Store) (id : Nat) (st : Status) : Store :=
  store.map (fun d => if d.id = id then { d with status := st } else d)

/-- db useOneCredit: the SQL CASE clamps credits_used at credits_total. -/
def useOneCredit (store : Store) (id : Nat) : Store :=
  store.map (fun d =>
    if d.id = id then
      { d with creditsUsed :=
          if d.creditsUsed + 1 > d.creditsTotal then d.creditsTotal else d.creditsUsed + 1 }
    else d)

/-- db markCreditsPulsed: one-way flag, SET credits_pulsed = 1 WHERE id = ?. -/
def markCreditsPulsed (store : Store) (id : Nat) : Store :=
  store.map (fun d => if d.id = id then { d with creditsPulsed := true } else d)

/-- db requeueToEnd: status waiting + refreshed created_at (row moves to queue end). -/
def requeueToEnd (store : Store) (id : Nat) : Store :=
  store.filter (fun d => d.id ≠ id) ++
    (store.filter (fun d => d.id = id)).map (fun d => { d with status := .waiting })

/-- db markIntentPaid (keyed here by donation id): sets credits_total, status waiting,
    and refreshes created_at, i.e. the row moves to the end of the queue order. -/
def markIntentPaid (store : Store) (id : Nat) (total : Int) : Store :=
  store.filter (fun d => d.id ≠ id) ++
    (store.filter (fun d => d.id = id)).map
      (fun d => { d with creditsTotal := total, status := .waiting })

/-- db listQueue: rows with status waiting or active, in created_at order. -/
def listQueue (store : Store) : Store :=
  store.filter (fun d => d.status = .waiting ∨ d.status = .active)

/-- db adjustCredits: credits_total := max (max 0 (total + delta)) credits_used. -/
def adjustCredits (store : Store) (id : Nat) (delta : Int) : Store :=
  store.map (fun d =>
    if d.id = id then
      { d with creditsTotal := max (max 0 (d.creditsTotal + delta)) d.creditsUsed }
    else d)

/-- db setCreditsTotal: credits_total := max (max 0 v) credits_used. -/
def setCreditsTotal (store : Store) (id : Nat) (v : Int) : Store :=
  store.map (fun d =>
    if d.id = id then
      { d with creditsTotal := max (max 0 v) d.creditsUsed }
    else d)

/-- db setCreditsUsed: credits_used := max 0 (min v credits_total). -/
def setCreditsUsed (store : Store) (id : Nat) (v : Int) : Store :=
  store.map (fun d =>
    if d.id = id then
      { d with creditsUsed := max 0 (min v d.creditsTotal) }
    else d)

/-- The ephemeral in-memory Active Session object of game.js (timer handles omitted,
    see the header comment). -/
structure Session where
  donationId : Nat
  creditsRemaining : Int
  timerStarted : Bool
  creditEndsAt : Option Nat
  firstMoveDeadline : Option Nat
  hasMoved : Bool
  grabUsed : Bool
  creditSeq : Nat
  creditConsumed : Bool
deriving DecidableEq, Repr

/-- Trace entries for fire-and-forget gpio calls. -/
inductive Pulse where
  | credit
  | grab
  | releaseAll
deriving DecidableEq, Repr

/-- Whole scheduler state: persisted store, the zero-or-one Active Session,
    the gpio trace, and the player-timeout event trace (donationId, reason). -/
structure GameState where
  store : Store
  active : Option Session
  pulses : List Pulse
  events : List (Nat × String)
deriving DecidableEq, Repr

def CREDIT_MS : Nat := 35 * 1000
def FIRST_MOVE_MS : Nat := 15 * 1000
def GRAB_FINISH_MS : Nat := 7 * 1000

/-- Boot recovery pass 2 and the cleanup loop at the top of maybeStartNext:
    every waiting row with no credits left is marked done. -/
def sweepZeroCredit (store : Store) : Store :=
  store.map (fun d =>
    if d.status = .waiting ∧ remainingOf d ≤ 0 then { d with status := .done } else d)

/-- game.js recoverAfterRestart: demote every active row to waiting, then mark
    every waiting row with zero remaining credits as done. -/
def recoverAfterRestart (store : Store) : Store :=
  sweepZeroCredit
    (store.map (fun d => if d.status = .active then { d with status := .waiting } else d))

/-- Number of waiting rows (the measure bounding maybeStartNext's self-recursion). -/
def countWaiting (store : Store) : Nat :=
  store.countP (fun d => d.status = .waiting)

/-- The Active Session object created in maybeStartNext (firstMoveDeadline is set
    at creation and once more by scheduleFirstMoveTimeout, with the same value). -/
def newSession (id : Nat) (rem : Int) (now : Nat) : Session :=
  { donationId := id
    creditsRemaining := rem
    timerStarted := false
    creditEndsAt := none
    firstMoveDeadline := some (now + FIRST_MOVE_MS)
    hasMoved := false
    grabUsed := false
    creditSeq := 0
    creditConsumed := false }

/-- The recursive body of game.js maybeStartNext, entered with no Active Session.
    The fuel argument makes the self-recursion (line 140: restart the scan after
    marking a zero-credit head row done) structural; the development proves that
    fuel countWaiting + 1 always suffices. -/
def maybeStartNextGo : Nat → Nat → Store → Option (Store × Option Session × List Pulse)
  | 0, _, _ => none
  | fuel + 1, now, store =>
    match (listQueue (sweepZeroCredit store)).find? (fun q => q.status = .waiting) with
    | none => some (sweepZeroCredit store, none, [])
    | some next =>
      if remainingOf next ≤ 0 then
        maybeStartNextGo fuel now (setDonationStatus (sweepZeroCredit store) next.id .done)
      else if next.creditsPulsed = false ∧ 0 < remainingOf next then
        some (markCreditsPulsed (setDonationStatus (sweepZeroCredit store) next.id .active) next.id,
              some (newSession next.id (remainingOf next) now),
              List.replicate (remainingOf next).toNat .credit)
      else
        some (setDonationStatus (sweepZeroCredit store) next.id .active,
              some (newSession next.id (remainingOf next) now),
              [])

/-- game.js maybeStartNext: no-op while an Active Session exists. -/
def maybeStartNext (now : Nat) (gs : GameState) : GameState :=
  match gs.active with
  | some _ => gs
  | none =>
    match maybeStartNextGo (countWaiting gs.store + 1) now gs.store with
    | some (store1, act, ps) =>
      { store := store1, active := act, pulses := gs.pulses ++ ps, events := gs.events }
    | none => gs

/-- game.js scheduleFirstMoveTimeout: refresh the first-move deadline (the timer
    handle itself is not state; its callback is firstMoveTimerFire below). -/
def scheduleFirstMoveTimeout (now : Nat) (gs : GameState) : GameState :=
  match gs.active with
  | none => gs
  | some s =>
    { gs with active := some { s with firstMoveDeadline := some (now + FIRST_MOVE_MS) } }

/-- game.js endActivePlayer: clear timers, gpio releaseAll, mark the participant
    done, clear the Active Session, start the next player. -/
def endActivePlayer (now : Nat) (gs : GameState) : GameState :=
  match gs.active with
  | none => gs
  | some s =>
    maybeStartNext now
      { store := setDonationStatus gs.store s.donationId .done
        active := none
        pulses := gs.pulses ++ [.releaseAll]
        events := gs.events }

/-- game.js startCreditTimerIfNeeded: on the first real action, mark hasMoved,
    start the credit window, bump the epoch and clear the consume flag.  The
    scheduled 35s callback is creditTimerFire with the bumped sequence. -/
def startCreditTimerIfNeeded (now : Nat) (gs : GameState) : GameState :=
  match gs.active with
  | none => gs
  | some s =>
    if s.timerStarted then gs
    else
      { gs with active := some { s with
            hasMoved := true
            timerStarted := true
            creditEndsAt := some (now + CREDIT_MS)
            creditSeq := s.creditSeq + 1
            creditConsumed := false } }

/-- game.js consumeOneCreditSafely: idempotent per credit cycle. -/
def consumeOneCreditSafely (gs : GameState) : GameState × Bool :=
  match gs.active with
  | none => (gs, false)
  | some s =>
    if s.creditConsumed then (gs, false)
    else
      ({ gs with
          store := useOneCredit gs.store s.donationId
          active := some { s with creditConsumed := true,
                                  creditsRemaining := s.creditsRemaining - 1 } },
       true)

/-- game.js finishCreditNormally: consume a credit; either reopen a first-move
    window or end the session. -/
def finishCreditNormally (now : Nat) (gs : GameState) : GameState :=
  match gs.active with
  | none => gs
  | some _ =>
    match consumeOneCreditSafely gs with
    | (gs1, false) => gs1
    | (gs1, true) =>
      match gs1.active with
      | none => gs1
      | some s1 =>
        if 0 < s1.creditsRemaining then
          scheduleFirstMoveTimeout now
            { gs1 with active := some { s1 with timerStarted := false, creditEndsAt := none,
                                                hasMoved := false, grabUsed := false } }
        else endActivePlayer now gs1

/-- The 35s timer callback scheduled by startCreditTimerIfNeeded, with the
    sequence number it captured at scheduling time. -/
def creditTimerFire (capturedSeq : Nat) (now : Nat) (gs : GameState) : GameState :=
  match gs.active with
  | none => gs
  | some s => if s.creditSeq ≠ capturedSeq then gs else finishCreditNormally now gs

/-- Result object of game.js handleGrabIfAllowed. -/
inductive GrabRes where
  | ok
  | err (e : String)
deriving DecidableEq, Repr

/-- game.js handleGrabIfAllowed: one grab per credit; treats a grab before any
    move as the first action; shortens the window to GRAB_FINISH_MS and bumps
    the epoch.  The scheduled 7s callback is grabTimerFire with the new
    sequence. -/
def handleGrabIfAllowed (now : Nat) (gs : GameState) : GameState × GrabRes :=
  match gs.active with
  | none => (gs, .err "no_active")
  | some s0 =>
    if s0.grabUsed then (gs, .err "grab_already_used")
    else
      let gs1 := if s0.timerStarted = false then startCreditTimerIfNeeded now gs else gs
      match gs1.active with
      | none => (gs1, .ok)
      | some s =>
        ({ gs1 with
            active := some { s with
                grabUsed := true
                creditEndsAt := some (now + GRAB_FINISH_MS)
                creditSeq := s.creditSeq + 1
                creditConsumed := false }
            pulses := gs1.pulses ++ [.grab] },
         .ok)

/-- The 7s grab-finish callback scheduled inside handleGrabIfAllowed; the body
    duplicates finishCreditNormally in the source and is duplicated here. -/
def grabTimerFire (capturedSeq : Nat) (now : Nat) (gs : GameState) : GameState :=
  match gs.active with
  | none => gs
  | some s =>
    if s.creditSeq ≠ capturedSeq then gs
    else
      match consumeOneCreditSafely gs with
      | (gs1, false) => gs1
      | (gs1, true) =>
        match gs1.active with
        | none => gs1
        | some s1 =>
          if 0 < s1.creditsRemaining then
            scheduleFirstMoveTimeout now
              { gs1 with active := some { s1 with timerStarted := false, creditEndsAt := none,
                                                  hasMoved := false, grabUsed := false } }
          else endActivePlayer now gs1

/-- The first-move timeout callback scheduled by scheduleFirstMoveTimeout.
    Note: the source checks only that a session exists and that hasMoved is
    still false; it captures no sequence number. -/
def firstMoveTimerFire (now : Nat) (gs : GameState) : GameState :=
  match gs.active with
  | none => gs
  | some s =>
    if s.hasMoved then gs
    else
      if (listQueue gs.store).any (fun q => q.status = .waiting ∧ q.id ≠ s.donationId) then
        let gs2 := endActivePlayer now gs
        { gs2 with events := gs2.events ++ [(s.donationId, "no_first_move")] }
      else scheduleFirstMoveTimeout now gs

/-- game.js handlePaidDonation: grant min 5 (floor amountEur) credits (the floor
    of the paid amount is taken as the Int argument), mark the intent paid, try
    to start the next player. -/
def handlePaidDonation (now : Nat) (id : Nat) (credits : Int) (gs : GameState) : GameState :=
  maybeStartNext now { gs with store := markIntentPaid gs.store id (min 5 credits) }

/-- admin.js safeForceEndActive: game.js does not export forceEndActive, so the
    fallback always runs: mark the active donation done in the store and call
    maybeStartNext (a no-op while the in-memory session persists).  No timers
    are cleared, no releaseAll is issued, the Active Session is not cleared. -/
def safeForceEndActive (now : Nat) (gs : GameState) : GameState :=
  maybeStartNext now
    (match gs.active with
     | some s => { gs with store := setDonationStatus gs.store s.donationId .done }
     | none => gs)

/-- admin.js POST credits/add. -/
def adminAddCredits (now : Nat) (id : Nat) (delta : Int) (gs : GameState) : GameState :=
  maybeStartNext now { gs with store := adjustCredits gs.store id delta }

/-- admin.js POST credits/set-total. -/
def adminSetCreditsTotal (now : Nat) (id : Nat) (v : Int) (gs : GameState) : GameState :=
  maybeStartNext now { gs with store := setCreditsTotal gs.store id v }

/-- admin.js POST credits/set-used. -/
def adminSetCreditsUsed (now : Nat) (id : Nat) (v : Int) (gs : GameState) : GameState :=
  maybeStartNext now { gs with store := setCreditsUsed gs.store id v }

/-- admin.js POST requeue. -/
def adminRequeue (now : Nat) (id : Nat) (gs : GameState) : GameState :=
  maybeStartNext now { gs with store := requeueToEnd gs.store id }

/-- admin.js POST status/set: setting active uses the fallback (forceActivateDonation
    is not exported): set waiting and let the engine pick the row; moving the
    current active player away from active first runs safeForceEndActive. -/
def adminSetStatus (now : Nat) (id : Nat) (st : Status) (gs : GameState) : GameState :=
  if st = .active then
    maybeStartNext now { gs with store := setDonationStatus gs.store id .waiting }
  else
    let gs1 :=
      if gs.active.any (fun s => s.donationId = id) then safeForceEndActive now gs else gs
    maybeStartNext now { gs1 with store := setDonationStatus gs1.store id st }

/-- db createIntent: a fresh row with zero credits, status created, appended at
    the end of the created_at order. -/
def createIntentOp (id : Nat) (gs : GameState) : GameState :=
  { gs with store := gs.store ++
      [{ id := id, creditsTotal := 0, creditsUsed := 0, creditsPulsed := false,
         status := .created }] }

def ids (store : Store) : List Nat := store.map (fun d => d.id)

/-- One externally triggered scheduler transition (payment webhook, control
    input, timer expiry, admin endpoint).  Timer-expiry constructors quantify
    over the captured sequence number: cancellation is best-effort, so any
    previously scheduled callback may still fire. -/
inductive Step : GameState → GameState → Prop where
  | create (gs : GameState) (id : Nat) (h : id ∉ ids gs.store) :
      Step gs (createIntentOp id gs)
  | paid (gs : GameState) (now id : Nat) (credits : Int) :
      Step gs (handlePaidDonation now id credits gs)
  | startNext (gs : GameState) (now : Nat) :
      Step gs (maybeStartNext now gs)
  | move (gs : GameState) (now : Nat) :
      Step gs (startCreditTimerIfNeeded now gs)
  | grab (gs : GameState) (now : Nat) :
      Step gs (handleGrabIfAllowed now gs).1
  | creditFire (gs : GameState) (seq now : Nat) :
      Step gs (creditTimerFire seq now gs)
  | grabFire (gs : GameState) (seq now : Nat) :
      Step gs (grabTimerFire seq now gs)
  | firstMoveFire (gs : GameState) (now : Nat) :
      Step gs (firstMoveTimerFire now gs)
  | endActive (gs : GameState) (now : Nat) :
      Step gs (endActivePlayer now gs)
  | adminEnd (gs : GameState) (now : Nat) :
      Step gs (safeForceEndActive now gs)
  | adminRequeueStep (gs : GameState) (now id : Nat) :
      Step gs (adminRequeue now id gs)
  | adminAdd (gs : GameState) (now id : Nat) (delta : Int) :
      Step gs (adminAddCredits now id delta gs)
  | adminTotal (gs : GameState) (now id : Nat) (v : Int) :
      Step gs (adminSetCreditsTotal now id v gs)
  | adminUsed (gs : GameState) (now id : Nat) (v : Int) :
      Step gs (adminSetCreditsUsed now id v gs)
  | adminStatus (gs : GameState) (now id : Nat) (st : Status) :
      Step gs (adminSetStatus now id st gs)

/-- States reachable by the running process: boot recovery runs once, from an
    arbitrary persisted store (with primary-key-unique ids) and no Active
    Session, before any other transition is accepted (game.js line 89 runs it
    at module load). -/
inductive Reachable : GameState → Prop where
  | boot (store : Store) (h : (ids store).Nodup) :
      Reachable { store := recoverAfterRestart store, active := none, pulses := [], events := [] }
  | step {s t : GameState} : Reachable s → Step s t → Reachable t

/-- No row of the store has status active. -/
def NoActives (store : Store) : Prop := ∀ d ∈ store, d.status ≠ .active

/-- The persisted statuses agree with the in-memory Active Session: with no
    session nothing is active; with a session only its donation can be active. -/
def ActiveConsistent (gs : GameState) : Prop :=
  (gs.active = none → NoActives gs.store) ∧
  (∀ s, gs.active = some s → ∀ d ∈ gs.store, d.status = .active → d.id = s.donationId)

/-- The inductive invariant for C3. -/
def Inv (gs : GameState) : Prop := (ids gs.store).Nodup ∧ ActiveConsistent gs

/-- Some row with this id has creditsPulsed set (C5's one-way flag). -/
def pulsedTrue (id : Nat) (store : Store) : Prop :=
  ∃ d ∈ store, d.id = id ∧ d.creditsPulsed = true

/-- Per-participant invariant of C9. -/
def CreditInv (store : Store) : Prop :=
  ∀ d ∈ store, 0 ≤ d.creditsUsed ∧ d.creditsUsed ≤ d.creditsTotal

/-- Every row with this id has status done. -/
def DoneAt (store : Store) (id : Nat) : Prop := ∀ d ∈ store, d.id = id → d.status = .done

/-- The (id, creditsUsed) columns of the store, for stating that an operation
    persists no credit change. -/
def usedPairs (store : Store) : List (Nat × Int) :=
  store.map (fun d => (d.id, d.creditsUsed))

/- Concrete states used by scenario conjuncts, witnesses and counterexamples. -/

def gsEmpty : GameState := { store := [], active := none, pulses := [], events := [] }

/-- Session of participant 1 with one credit remaining, fresh cycle. -/
def sOne : Session :=
  { donationId := 1, creditsRemaining := 1, timerStarted := false,
    creditEndsAt := none, firstMoveDeadline := some 15000,
    hasMoved := false, grabUsed := false, creditSeq := 0, creditConsumed := false }

/-- Participant A with 1 credit remaining (3 total, 2 used), currently active,
    fresh cycle (no move yet). -/
def gsOneCredit : GameState :=
  { store := [{ id := 1, creditsTotal := 3, creditsUsed := 2, creditsPulsed := true,
                status := .active }]
    active := some sOne
    pulses := [], events := [] }

/-- Session 1 whose current cycle already consumed its credit. -/
def sConsumed : Session :=
  { donationId := 1, creditsRemaining := 0, timerStarted := true,
    creditEndsAt := some 35000, firstMoveDeadline := some 15000,
    hasMoved := true, grabUsed := false, creditSeq := 1, creditConsumed := true }

/-- Participant 1 active with the current credit already consumed. -/
def gsConsumed : GameState :=
  { store := [{ id := 1, creditsTotal := 3, creditsUsed := 3, creditsPulsed := true,
                status := .active }]
    active := some sConsumed
    pulses := [], events := [] }

/-- A moves at t=0: the credit timer opens, epoch becomes 1. -/
def gsMoved : GameState := startCreditTimerIfNeeded 0 gsOneCredit

/-- A grabs at t=1000 before expiry: epoch becomes 2, window truncated. -/
def gsGrabbed : GameState := (handleGrabIfAllowed 1000 gsMoved).1

/-- The grab-finish callback (captured epoch 2) fires at t=8000. -/
def gsFinished : GameState := grabTimerFire 2 8000 gsGrabbed

/-- Session of participant 1 with two credits, no move yet. -/
def sAB : Session :=
  { donationId := 1, creditsRemaining := 2, timerStarted := false,
    creditEndsAt := none, firstMoveDeadline := some 15000,
    hasMoved := false, grabUsed := false, creditSeq := 0, creditConsumed := false }

/-- A (2 credits) active and has not moved, B (2 credits) waiting. -/
def gsAB : GameState :=
  { store := [{ id := 1, creditsTotal := 2, creditsUsed := 0, creditsPulsed := true,
                status := .active },
              { id := 2, creditsTotal := 2, creditsUsed := 0, creditsPulsed := false,
                status := .waiting }]
    active := some sAB
    pulses := [], events := [] }

/-- Sole-participant session: three credits, no move yet. -/
def sSolo : Session :=
  { donationId := 1, creditsRemaining := 3, timerStarted := false,
    creditEndsAt := none, firstMoveDeadline := some 15000,
    hasMoved := false, grabUsed := false, creditSeq := 0, creditConsumed := false }

/-- Sole participant A active (3 credits), nobody else queued, no move yet. -/
def gsSolo : GameState :=
  { store := [{ id := 1, creditsTotal := 3, creditsUsed := 0, creditsPulsed := true,
                status := .active }]
    active := some sSolo
    pulses := [], events := [] }

/-- Session whose live epoch is 1: any first-move timer scheduled at epoch 0
    (session start) is stale with respect to it. -/
def sStale : Session :=
  { donationId := 1, creditsRemaining := 2, timerStarted := false, creditEndsAt := none,
    firstMoveDeadline := some 20000, hasMoved := false, grabUsed := false,
    creditSeq := 1, creditConsumed := false }

/-- A consumed one credit normally (epoch now 1, hasMoved reset for the new
    cycle) while B waits. -/
def gsStale : GameState :=
  { store := [{ id := 1, creditsTotal := 3, creditsUsed := 1, creditsPulsed := true,
                status := .active },
              { id := 2, creditsTotal := 2, creditsUsed := 0, creditsPulsed := false,
                status := .waiting }]
    active := some sStale
    pulses := [], events := [] }

/-- Mid-session session for donation 1: credit timer running, one credit used. -/
def sC8 : Session :=
  { donationId := 1, creditsRemaining := 2, timerStarted := true,
    creditEndsAt := some 40000, firstMoveDeadline := some 15000,
    hasMoved := true, grabUsed := false, creditSeq := 1, creditConsumed := false }

/-- Donation 1 mid-session, credit timer running, no one else queued. -/
def gsC8 : GameState :=
  { store := [{ id := 1, creditsTotal := 3, creditsUsed := 1, creditsPulsed := true,
                status := .active }]
    active := some sC8
    pulses := [], events := [] }

/-- Session whose grab was already used this cycle. -/
def sGrabUsed : Session :=
  { donationId := 1, creditsRemaining := 2, timerStarted := true,
    creditEndsAt := some 8000, firstMoveDeadline := some 15000,
    hasMoved := true, grabUsed := true, creditSeq := 2, creditConsumed := false }

/-- Active session whose grab was already used this cycle. -/
def gsGrabUsed : GameState :=
  { store := [{ id := 1, creditsTotal := 3, creditsUsed := 1, creditsPulsed := true,
                status := .active }]
    active := some sGrabUsed
    pulses := [], events := [] }

/-- Boot state: recovery over a single waiting donation with credits. -/
def gsBoot : GameState :=
  { store := recoverAfterRestart
      [{ id := 1, creditsTotal := 2, creditsUsed := 0, creditsPulsed := false,
         status := .waiting }]
    active := none, pulses := [], events := [] }

/-- The boot state after one activation attempt. -/
def gsRun : GameState := maybeStartNext 0 gsBoot

/- Generic helpers about the store primitives. -/

lemma ids_map_of (store : Store) (g : Donation → Donation) (h : ∀ d, (g d).id = d.id) :
    ids (store.map g) = ids store := by
  simp only [ids, List.map_map]
  congr 1
  funext d
  exact h d

lemma noActives_map (store : Store) (g : Donation → Donation)
    (hst : ∀ d, (g d).status = .active → d.status = .active) :
    NoActives store → NoActives (store.map g) := by
  intro h d hd
  obtain ⟨d0, hd0, rfl⟩ := List.mem_map.1 hd
  intro hact
  exact h d0 hd0 (hst d0 hact)

lemma acTo_map {k : Nat} (store : Store) (g : Donation → Donation)
    (hid : ∀ d, (g d).id = d.id)
    (hst : ∀ d, (g d).status = .active → d.status = .active) :
    (∀ d ∈ store, d.status = .active → d.id = k) →
    ∀ d ∈ store.map g, d.status = .active → d.id = k := by
  intro h d hd hact
  obtain ⟨d0, hd0, rfl⟩ := List.mem_map.1 hd
  rw [hid]
  exact h d0 hd0 (hst d0 hact)

lemma usedPairs_map (store : Store) (g : Donation → Donation)
    (h : ∀ d, (g d).id = d.id ∧ (g d).creditsUsed = d.creditsUsed) :
    usedPairs (store.map g) = usedPairs store := by
  simp only [usedPairs, List.map_map]
  congr 1
  funext d
  simp [Function.comp, (h d).1, (h d).2]

lemma pulsed_map (store : Store) (g : Donation → Donation) (id : Nat)
    (hid : ∀ d, (g d).id = d.id)
    (hp : ∀ d, d.creditsPulsed = true → (g d).creditsPulsed = true) :
    pulsedTrue id store → pulsedTrue id (store.map g) := by
  rintro ⟨d, hd, hdid, hdp⟩
  exact ⟨g d, List.mem_map_of_mem _ hd, by rw [hid]; exact hdid, hp d hdp⟩

lemma ids_setStatus (store : Store) (id : Nat) (st : Status) :
    ids (setDonationStatus store id st) = ids store :=
  ids_map_of _ _ (by intro d; split <;> rfl)

lemma ids_useOneCredit (store : Store) (id : Nat) :
    ids (useOneCredit store id) = ids store :=
  ids_map_of _ _ (by intro d; split <;> rfl)

lemma ids_markCreditsPulsed (store : Store) (id : Nat) :
    ids (markCreditsPulsed store id) = ids store :=
  ids_map_of _ _ (by intro d; split <;> rfl)

lemma ids_sweepZeroCredit (store : Store) :
    ids (sweepZeroCredit store) = ids store :=
  ids_map_of _ _ (by intro d; split <;> rfl)

/-- Generic preservation of a store relation along the maybeStartNextGo recursion:
    the body only applies sweepZeroCredit, setDonationStatus and markCreditsPulsed. -/
lemma go_rel (R : Store → Store → Prop)
    (htrans : ∀ a b c, R a b → R b c → R a c)
    (hsweep : ∀ s, R s (sweepZeroCredit s))
    (hset : ∀ s i t, R s (setDonationStatus s i t))
    (hmk : ∀ s i, R s (markCreditsPulsed s i)) :
    ∀ (fuel now : Nat) (store store1 : Store) (act : Option Session) (ps : List Pulse),
      maybeStartNextGo fuel now store = some (store1, act, ps) → R store store1 := by
  intro fuel
  induction fuel with
  | zero =>
    intro now store store1 act ps h
    simp [maybeStartNextGo] at h
  | succ fuel ih =>
    intro now store store1 act ps h
    simp only [maybeStartNextGo] at h
    rcases hfind : (listQueue (sweepZeroCredit store)).find? (fun q => q.status = .waiting)
      with _ | next
    · rw [hfind] at h
      simp only [Option.some.injEq, Prod.mk.injEq] at h
      obtain ⟨h1, -, -⟩ := h
      rw [← h1]
      exact hsweep store
    · rw [hfind] at h
      simp only at h
      split_ifs at h with h1 h2
      · exact htrans _ _ _ (htrans _ _ _ (hsweep store) (hset _ _ _)) (ih _ _ _ _ _ h)
      · simp only [Option.some.injEq, Prod.mk.injEq] at h
        obtain ⟨h3, -, -⟩ := h
        rw [← h3]
        exact htrans _ _ _ (htrans _ _ _ (hsweep store) (hset _ _ _)) (hmk _ _)
      · simp only [Option.some.injEq, Prod.mk.injEq] at h
        obtain ⟨h3, -, -⟩ := h
        rw [← h3]
        exact htrans _ _ _ (hsweep store) (hset _ _ _)

lemma setDone_ptw (tid : Nat) :
    ∀ d : Donation,
      decide ((if d.id = tid then { d with status := Status.done } else d).status = Status.waiting) = true →
      decide (d.status = Status.waiting) = true := by
  intro d h
  by_cases hc : d.id = tid
  · simp [hc] at h
  · simpa [hc] using h

lemma countP_map_le (p : Donation → Bool) (g : Donation → Donation)
    (h : ∀ d, p (g d) = true → p d = true) :
    ∀ l : Store, (l.map g).countP p ≤ l.countP p := by
  intro l
  induction l with
  | nil => simp
  | cons d t ih =>
    simp only [List.map_cons, List.countP_cons]
    by_cases h1 : p (g d) = true
    · rw [if_pos h1, if_pos (h d h1)]
      omega
    · rw [if_neg h1]
      split_ifs <;> omega

lemma countWaiting_sweep_le (store : Store) :
    countWaiting (sweepZeroCredit store) ≤ countWaiting store := by
  unfold countWaiting sweepZeroCredit
  apply countP_map_le
  intro d h
  by_cases hc : d.status = Status.waiting ∧ remainingOf d ≤ 0
  · simp [hc.1]
  · simpa [hc] using h

lemma countWaiting_setDone_lt (store : Store) (d0 : Donation) (hw : d0.status = .waiting) :
    d0 ∈ store → countWaiting (setDonationStatus store d0.id .done) < countWaiting store := by
  unfold countWaiting setDonationStatus
  induction store with
  | nil => intro h; cases h
  | cons d t ih =>
    intro hmem
    simp only [List.map_cons, List.countP_cons]
    have htail := countP_map_le (fun d => decide (d.status = Status.waiting))
      (fun d => if d.id = d0.id then { d with status := Status.done } else d)
      (setDone_ptw d0.id) t
    rcases List.mem_cons.1 hmem with rfl | hmem2
    · rw [if_pos rfl]
      simp only [decide_eq_true_eq]
      rw [if_neg (by simp), if_pos hw]
      omega
    · have hstep := ih hmem2
      by_cases h1 : decide ((if d.id = d0.id then { d with status := Status.done } else d).status = Status.waiting) = true
      · rw [if_pos h1, if_pos (setDone_ptw d0.id d h1)]
        omega
      · rw [if_neg h1]
        split_ifs <;> omega

lemma go_isSome : ∀ (fuel now : Nat) (store : Store), countWaiting store < fuel →
    (maybeStartNextGo fuel now store).isSome = true := by
  intro fuel
  induction fuel with
  | zero => intro now store h; omega
  | succ fuel ih =>
    intro now store h
    simp only [maybeStartNextGo]
    rcases hfind : (listQueue (sweepZeroCredit store)).find? (fun q => q.status = .waiting)
      with _ | next
    · rw [hfind]
      rfl
    · rw [hfind]
      have hnm : next ∈ sweepZeroCredit store :=
        (List.mem_filter.1 (List.mem_of_find?_eq_some hfind)).1
      have hnw : next.status = Status.waiting := by
        have hfs := List.find?_some hfind
        exact of_decide_eq_true hfs
      dsimp only
      split_ifs with h1 h2
      · apply ih
        have l1 := countWaiting_setDone_lt (sweepZeroCredit store) next hnw hnm
        have l2 := countWaiting_sweep_le store
        omega
      · rfl
      · rfl

lemma noActives_sweep (store : Store) :
    NoActives store → NoActives (sweepZeroCredit store) := by
  intro h
  refine noActives_map _ _ ?_ h
  intro d hd
  by_cases hc : d.status = Status.waiting ∧ remainingOf d ≤ 0
  · simp [hc] at hd
  · simpa [hc] using hd

lemma noActives_setStatus (store : Store) (id : Nat) (st : Status) (hst : st ≠ Status.active) :
    NoActives store → NoActives (setDonationStatus store id st) := by
  intro h
  refine noActives_map _ _ ?_ h
  intro d hd
  by_cases hc : d.id = id
  · simp only [hc, if_true] at hd
    exact absurd hd hst
  · simpa [hc] using hd

lemma acTo_setActive (store : Store) (tid : Nat) (h : NoActives store) :
    ∀ d ∈ setDonationStatus store tid .active, d.status = .active → d.id = tid := by
  intro d hd hact
  obtain ⟨d0, hd0, rfl⟩ := List.mem_map.1 hd
  by_cases hc : d0.id = tid
  · simp [hc]
  · simp only [hc, if_false] at hact ⊢
    exact absurd hact (h d0 hd0)

lemma acTo_markPulsed {k : Nat} (store : Store) (id : Nat) :
    (∀ d ∈ store, d.status = .active → d.id = k) →
    ∀ d ∈ markCreditsPulsed store id, d.status = .active → d.id = k := by
  intro h
  refine acTo_map _ _ ?_ ?_ h
  · intro d
    by_cases hc : d.id = id <;> simp [hc]
  · intro d hd
    by_cases hc : d.id = id
    · simpa [hc] using hd
    · simpa [hc] using hd

/-- What the maybeStartNextGo recursion guarantees about statuses when the
    store had no active row on entry: either it still has none (no session was
    created), or all active rows carry the new session participant id. -/
lemma go_ac : ∀ (fuel now : Nat) (store store1 : Store) (act : Option Session) (ps : List Pulse),
    maybeStartNextGo fuel now store = some (store1, act, ps) → NoActives store →
    (act = none → NoActives store1) ∧
      (∀ s, act = some s → ∀ d ∈ store1, d.status = .active → d.id = s.donationId) := by
  intro fuel
  induction fuel with
  | zero =>
    intro now store store1 act ps h
    simp [maybeStartNextGo] at h
  | succ fuel ih =>
    intro now store store1 act ps h hna
    simp only [maybeStartNextGo] at h
    rcases hfind : (listQueue (sweepZeroCredit store)).find? (fun q => q.status = .waiting)
      with _ | next
    · rw [hfind] at h
      simp only [Option.some.injEq, Prod.mk.injEq] at h
      obtain ⟨h1, h2, -⟩ := h
      subst h1
      constructor
      · intro _
        exact noActives_sweep store hna
      · intro s hs
        rw [← h2] at hs
        cases hs
    · rw [hfind] at h
      simp only at h
      split_ifs at h with h1 h2
      · exact ih _ _ _ _ _ h
          (noActives_setStatus _ _ _ (by intro hx; cases hx) (noActives_sweep store hna))
      · simp only [Option.some.injEq, Prod.mk.injEq] at h
        obtain ⟨h3, h4, -⟩ := h
        subst h3
        constructor
        · intro hn
          rw [← h4] at hn
          cases hn
        · intro s hs
          rw [← h4] at hs
          cases hs
          exact acTo_markPulsed _ _
            (acTo_setActive _ _ (noActives_sweep store hna))
      · simp only [Option.some.injEq, Prod.mk.injEq] at h
        obtain ⟨h3, h4, -⟩ := h
        subst h3
        constructor
        · intro hn
          rw [← h4] at hn
          cases hn
        · intro s hs
          rw [← h4] at hs
          cases hs
          exact acTo_setActive _ _ (noActives_sweep store hna)

lemma doneAt_setStatus_self (store : Store) (id : Nat) :
    DoneAt (setDonationStatus store id .done) id := by
  intro d hd hdid
  obtain ⟨d0, hd0, rfl⟩ := List.mem_map.1 hd
  by_cases hc : d0.id = id
  · rw [if_pos hc]
  · rw [if_neg hc] at hdid
    exact absurd hdid hc

lemma doneAt_setStatus_done (store : Store) (tid id : Nat) :
    DoneAt store id → DoneAt (setDonationStatus store tid .done) id := by
  intro h d hd hdid
  obtain ⟨d0, hd0, rfl⟩ := List.mem_map.1 hd
  by_cases hc : d0.id = tid
  · rw [if_pos hc]
  · rw [if_neg hc] at hdid ⊢
    exact h d0 hd0 hdid

lemma doneAt_setStatus_ne (store : Store) (tid id : Nat) (st : Status) (hne : tid ≠ id) :
    DoneAt store id → DoneAt (setDonationStatus store tid st) id := by
  intro h d hd hdid
  obtain ⟨d0, hd0, rfl⟩ := List.mem_map.1 hd
  by_cases hc : d0.id = tid
  · rw [if_pos hc] at hdid
    exact absurd (hc.symm.trans hdid) hne
  · rw [if_neg hc] at hdid ⊢
    exact h d0 hd0 hdid

lemma doneAt_sweep (store : Store) (id : Nat) :
    DoneAt store id → DoneAt (sweepZeroCredit store) id := by
  intro h d hd hdid
  obtain ⟨d0, hd0, rfl⟩ := List.mem_map.1 hd
  by_cases hc : d0.status = Status.waiting ∧ remainingOf d0 ≤ 0
  · rw [if_pos hc]
  · rw [if_neg hc] at hdid ⊢
    exact h d0 hd0 hdid

lemma doneAt_markPulsed (store : Store) (tid id : Nat) :
    DoneAt store id → DoneAt (markCreditsPulsed store tid) id := by
  intro h d hd hdid
  obtain ⟨d0, hd0, rfl⟩ := List.mem_map.1 hd
  by_cases hc : d0.id = tid
  · rw [if_pos hc] at hdid ⊢
    exact h d0 hd0 hdid
  · rw [if_neg hc] at hdid ⊢
    exact h d0 hd0 hdid

/-- The maybeStartNextGo recursion never resurrects a done participant: only
    waiting rows are activated, and a row all of whose ids are done is not
    waiting. -/
lemma go_doneAt (id : Nat) :
    ∀ (fuel now : Nat) (store store1 : Store) (act : Option Session) (ps : List Pulse),
      maybeStartNextGo fuel now store = some (store1, act, ps) →
      DoneAt store id → DoneAt store1 id := by
  intro fuel
  induction fuel with
  | zero =>
    intro now store store1 act ps h
    simp [maybeStartNextGo] at h
  | succ fuel ih =>
    intro now store store1 act ps h hda
    simp only [maybeStartNextGo] at h
    rcases hfind : (listQueue (sweepZeroCredit store)).find? (fun q => q.status = .waiting)
      with _ | next
    · rw [hfind] at h
      simp only [Option.some.injEq, Prod.mk.injEq] at h
      obtain ⟨h1, -, -⟩ := h
      subst h1
      exact doneAt_sweep store id hda
    · rw [hfind] at h
      simp only at h
      have hnm : next ∈ sweepZeroCredit store :=
        (List.mem_filter.1 (List.mem_of_find?_eq_some hfind)).1
      have hnw : next.status = Status.waiting := by
        have hfs := List.find?_some hfind
        exact of_decide_eq_true hfs
      have hsw : DoneAt (sweepZeroCredit store) id := doneAt_sweep store id hda
      have hne : next.id ≠ id := by
        intro hx
        have := hsw next hnm hx
        rw [hnw] at this
        cases this
      split_ifs at h with h1 h2
      · exact ih _ _ _ _ _ h (doneAt_setStatus_done _ _ _ hsw)
      · simp only [Option.some.injEq, Prod.mk.injEq] at h
        obtain ⟨h3, -, -⟩ := h
        subst h3
        exact doneAt_markPulsed _ _ _ (doneAt_setStatus_ne _ _ _ _ hne hsw)
      · simp only [Option.some.injEq, Prod.mk.injEq] at h
        obtain ⟨h3, -, -⟩ := h
        subst h3
        exact doneAt_setStatus_ne _ _ _ _ hne hsw

lemma usedPairs_setStatus (store : Store) (id : Nat) (st : Status) :
    usedPairs (setDonationStatus store id st) = usedPairs store :=
  usedPairs_map _ _ (by intro d; constructor <;> (split <;> rfl))

lemma usedPairs_markPulsed (store : Store) (id : Nat) :
    usedPairs (markCreditsPulsed store id) = usedPairs store :=
  usedPairs_map _ _ (by intro d; constructor <;> (split <;> rfl))

lemma usedPairs_sweep (store : Store) :
    usedPairs (sweepZeroCredit store) = usedPairs store :=
  usedPairs_map _ _ (by intro d; constructor <;> (split <;> rfl))

lemma pulsed_setStatus (store : Store) (tid : Nat) (st : Status) (id : Nat) :
    pulsedTrue id store → pulsedTrue id (setDonationStatus store tid st) :=
  pulsed_map _ _ _ (by intro d; split <;> rfl)
    (by intro d h; split <;> exact h)

lemma pulsed_markPulsed (store : Store) (tid : Nat) (id : Nat) :
    pulsedTrue id store → pulsedTrue id (markCreditsPulsed store tid) :=
  pulsed_map _ _ _ (by intro d; split <;> rfl)
    (by intro d h; split <;> (first | rfl | exact h))

lemma pulsed_sweep (store : Store) (id : Nat) :
    pulsedTrue id store → pulsedTrue id (sweepZeroCredit store) :=
  pulsed_map _ _ _ (by intro d; split <;> rfl)
    (by intro d h; split <;> exact h)

lemma pulsed_useOneCredit (store : Store) (tid : Nat) (id : Nat) :
    pulsedTrue id store → pulsedTrue id (useOneCredit store tid) :=
  pulsed_map _ _ _ (by intro d; split <;> rfl)
    (by intro d h; split <;> exact h)

lemma go_ids {fuel now : Nat} {store store1 : Store} {act : Option Session} {ps : List Pulse}
    (h : maybeStartNextGo fuel now store = some (store1, act, ps)) : ids store1 = ids store :=
  go_rel (fun a b => ids b = ids a)
    (fun _ _ _ hab hbc => hbc.trans hab)
    ids_sweepZeroCredit ids_setStatus ids_markCreditsPulsed
    fuel now store store1 act ps h

lemma go_usedPairs {fuel now : Nat} {store store1 : Store} {act : Option Session}
    {ps : List Pulse} (h : maybeStartNextGo fuel now store = some (store1, act, ps)) :
    usedPairs store1 = usedPairs store :=
  go_rel (fun a b => usedPairs b = usedPairs a)
    (fun _ _ _ hab hbc => hbc.trans hab)
    usedPairs_sweep usedPairs_setStatus usedPairs_markPulsed
    fuel now store store1 act ps h

lemma go_pulsed (id : Nat) {fuel now : Nat} {store store1 : Store} {act : Option Session}
    {ps : List Pulse} (h : maybeStartNextGo fuel now store = some (store1, act, ps)) :
    pulsedTrue id store → pulsedTrue id store1 :=
  go_rel (fun a b => pulsedTrue id a → pulsedTrue id b)
    (fun _ _ _ hab hbc hp => hbc (hab hp))
    (fun s => pulsed_sweep s id)
    (fun s i t => pulsed_setStatus s i t id)
    (fun s i => pulsed_markPulsed s i id)
    fuel now store store1 act ps h

/-- Either maybeStartNext is the identity (a session exists, or the fuelled scan
    returns none), or it rebuilds the state from the scan result. -/
lemma maybeStartNext_cases (now : Nat) (gs : GameState) :
    maybeStartNext now gs = gs ∨
    ∃ store1 act ps, gs.active = none ∧
      maybeStartNextGo (countWaiting gs.store + 1) now gs.store = some (store1, act, ps) ∧
      maybeStartNext now gs =
        { store := store1, active := act, pulses := gs.pulses ++ ps, events := gs.events } := by
  rcases h : gs.active with _ | s
  · rcases hgo : maybeStartNextGo (countWaiting gs.store + 1) now gs.store
      with _ | ⟨store1, act, ps⟩
    · left
      unfold maybeStartNext
      rw [h, hgo]
    · right
      refine ⟨store1, act, ps, rfl, rfl, ?_⟩
      unfold maybeStartNext
      rw [h, hgo]
  · left
    unfold maybeStartNext
    rw [h]

lemma maybeStartNext_some (now : Nat) (gs : GameState) (s : Session) (h : gs.active = some s) :
    maybeStartNext now gs = gs := by
  unfold maybeStartNext
  rw [h]

lemma noActives_end (store : Store) (k : Nat)
    (h : ∀ d ∈ store, d.status = .active → d.id = k) :
    NoActives (setDonationStatus store k .done) := by
  intro d hd
  obtain ⟨d0, hd0, rfl⟩ := List.mem_map.1 hd
  by_cases hc : d0.id = k
  · rw [if_pos hc]
    intro hx
    cases hx
  · rw [if_neg hc]
    intro hact
    exact hc (h d0 hd0 hact)

lemma maybeStartNext_inv (now : Nat) (gs : GameState) (h : Inv gs) :
    Inv (maybeStartNext now gs) := by
  rcases maybeStartNext_cases now gs with heq | ⟨store1, act, ps, hA, hgo, heq⟩
  · rw [heq]
    exact h
  · rw [heq]
    have hna : NoActives gs.store := h.2.1 hA
    have hac := go_ac _ _ _ _ _ _ hgo hna
    refine ⟨?_, ?_, ?_⟩
    · show (ids store1).Nodup
      rw [go_ids hgo]
      exact h.1
    · intro hn
      exact hac.1 hn
    · intro s hs
      exact hac.2 s hs

lemma maybeStartNext_events (now : Nat) (gs : GameState) :
    (maybeStartNext now gs).events = gs.events := by
  rcases maybeStartNext_cases now gs with heq | ⟨store1, act, ps, hA, hgo, heq⟩ <;> rw [heq]

lemma maybeStartNext_usedPairs (now : Nat) (gs : GameState) :
    usedPairs (maybeStartNext now gs).store = usedPairs gs.store := by
  rcases maybeStartNext_cases now gs with heq | ⟨store1, act, ps, hA, hgo, heq⟩ <;> rw [heq]
  exact go_usedPairs hgo

lemma maybeStartNext_doneAt (now : Nat) (gs : GameState) (id : Nat) (h : DoneAt gs.store id) :
    DoneAt (maybeStartNext now gs).store id := by
  rcases maybeStartNext_cases now gs with heq | ⟨store1, act, ps, hA, hgo, heq⟩ <;> rw [heq]
  · exact h
  · exact go_doneAt id _ _ _ _ _ _ hgo h

lemma maybeStartNext_pulsed (now : Nat) (gs : GameState) (id : Nat)
    (h : pulsedTrue id gs.store) : pulsedTrue id (maybeStartNext now gs).store := by
  rcases maybeStartNext_cases now gs with heq | ⟨store1, act, ps, hA, hgo, heq⟩ <;> rw [heq]
  · exact h
  · exact go_pulsed id hgo h

lemma endActivePlayer_cases (now : Nat) (gs : GameState) :
    (gs.active = none ∧ endActivePlayer now gs = gs) ∨
    ∃ s, gs.active = some s ∧
      endActivePlayer now gs =
        maybeStartNext now
          { store := setDonationStatus gs.store s.donationId .done, active := none,
            pulses := gs.pulses ++ [.releaseAll], events := gs.events } := by
  rcases h : gs.active with _ | s
  · left
    exact ⟨rfl, by unfold endActivePlayer; rw [h]⟩
  · right
    exact ⟨s, rfl, by unfold endActivePlayer; rw [h]⟩

lemma endActivePlayer_inv (now : Nat) (gs : GameState) (h : Inv gs) :
    Inv (endActivePlayer now gs) := by
  rcases endActivePlayer_cases now gs with ⟨-, heq⟩ | ⟨s, hA, heq⟩
  · rw [heq]
    exact h
  · rw [heq]
    apply maybeStartNext_inv
    refine ⟨?_, ?_, ?_⟩
    · show (ids (setDonationStatus gs.store s.donationId .done)).Nodup
      rw [ids_setStatus]
      exact h.1
    · intro _
      exact noActives_end _ _ (h.2.2 s hA)
    · intro s1 hs1
      cases hs1

lemma endActivePlayer_events (now : Nat) (gs : GameState) :
    (endActivePlayer now gs).events = gs.events := by
  rcases endActivePlayer_cases now gs with ⟨-, heq⟩ | ⟨s, hA, heq⟩ <;> rw [heq]
  rw [maybeStartNext_events]

lemma endActivePlayer_usedPairs (now : Nat) (gs : GameState) :
    usedPairs (endActivePlayer now gs).store = usedPairs gs.store := by
  rcases endActivePlayer_cases now gs with ⟨-, heq⟩ | ⟨s, hA, heq⟩ <;> rw [heq]
  rw [maybeStartNext_usedPairs]
  exact usedPairs_setStatus _ _ _

lemma endActivePlayer_doneAt (now : Nat) (gs : GameState) (s : Session)
    (hA : gs.active = some s) :
    DoneAt (endActivePlayer now gs).store s.donationId := by
  rcases endActivePlayer_cases now gs with ⟨hn, -⟩ | ⟨s1, hA1, heq⟩
  · rw [hn] at hA
    cases hA
  · rw [hA1] at hA
    cases hA
    rw [heq]
    exact maybeStartNext_doneAt _ _ _ (doneAt_setStatus_self _ _)

lemma endActivePlayer_pulsed (now : Nat) (gs : GameState) (id : Nat)
    (h : pulsedTrue id gs.store) : pulsedTrue id (endActivePlayer now gs).store := by
  rcases endActivePlayer_cases now gs with ⟨-, heq⟩ | ⟨s, hA, heq⟩ <;> rw [heq]
  · exact h
  · exact maybeStartNext_pulsed _ _ _ (pulsed_setStatus _ _ _ _ h)

lemma inv_transfer (gs gs1 : GameState)
    (hids : ids gs1.store = ids gs.store)
    (hna : NoActives gs.store → NoActives gs1.store)
    (hac : ∀ k, (∀ d ∈ gs.store, d.status = .active → d.id = k) →
           ∀ d ∈ gs1.store, d.status = .active → d.id = k)
    (hact : Option.map Session.donationId gs1.active = Option.map Session.donationId gs.active)
    (h : Inv gs) : Inv gs1 := by
  obtain ⟨hnd, h1, h2⟩ := h
  refine ⟨by rw [hids]; exact hnd, ?_, ?_⟩
  · intro hn
    rw [hn] at hact
    rcases hA : gs.active with _ | s
    · exact hna (h1 hA)
    · rw [hA] at hact
      simp at hact
  · intro s1 hs1
    rw [hs1] at hact
    rcases hA : gs.active with _ | s
    · rw [hA] at hact
      simp at hact
    · rw [hA] at hact
      simp only [Option.map_some', Option.some.injEq] at hact
      intro d hd hdact
      rw [hact]
      exact hac s.donationId (h2 s hA) d hd hdact

lemma acTo_statusSafe {k : Nat} (store : Store) (g : Donation → Donation)
    (hid : ∀ d, (g d).id = d.id) (hst : ∀ d, (g d).status = d.status) :
    (∀ d ∈ store, d.status = .active → d.id = k) →
    ∀ d ∈ store.map g, d.status = .active → d.id = k :=
  acTo_map _ _ hid (fun d h => by rw [hst d] at h; exact h)

lemma noActives_statusSafe (store : Store) (g : Donation → Donation)
    (hst : ∀ d, (g d).status = d.status) :
    NoActives store → NoActives (store.map g) :=
  noActives_map _ _ (fun d h => by rw [hst d] at h; exact h)

lemma scheduleFirstMoveTimeout_cases (now : Nat) (gs : GameState) :
    (gs.active = none ∧ scheduleFirstMoveTimeout now gs = gs) ∨
    ∃ s, gs.active = some s ∧
      scheduleFirstMoveTimeout now gs =
        { gs with active := some { s with firstMoveDeadline := some (now + FIRST_MOVE_MS) } } := by
  rcases h : gs.active with _ | s
  · left
    exact ⟨rfl, by unfold scheduleFirstMoveTimeout; rw [h]⟩
  · right
    exact ⟨s, rfl, by unfold scheduleFirstMoveTimeout; rw [h]⟩

lemma schedule_inv (now : Nat) (gs : GameState) (h : Inv gs) :
    Inv (scheduleFirstMoveTimeout now gs) := by
  rcases scheduleFirstMoveTimeout_cases now gs with ⟨-, heq⟩ | ⟨s, hA, heq⟩ <;> rw [heq]
  · exact h
  · exact inv_transfer gs _ rfl (fun x => x) (fun k hk => hk) (by rw [hA]; rfl) h

lemma schedule_events (now : Nat) (gs : GameState) :
    (scheduleFirstMoveTimeout now gs).events = gs.events := by
  rcases scheduleFirstMoveTimeout_cases now gs with ⟨-, heq⟩ | ⟨s, hA, heq⟩ <;> rw [heq]

lemma schedule_store (now : Nat) (gs : GameState) :
    (scheduleFirstMoveTimeout now gs).store = gs.store := by
  rcases scheduleFirstMoveTimeout_cases now gs with ⟨-, heq⟩ | ⟨s, hA, heq⟩ <;> rw [heq]

lemma startCredit_cases (now : Nat) (gs : GameState) :
    startCreditTimerIfNeeded now gs = gs ∨
    ∃ s, gs.active = some s ∧ s.timerStarted = false ∧
      startCreditTimerIfNeeded now gs =
        { gs with active := some { s with hasMoved := true, timerStarted := true,
                                          creditEndsAt := some (now + CREDIT_MS),
                                          creditSeq := s.creditSeq + 1,
                                          creditConsumed := false } } := by
  rcases h : gs.active with _ | s
  · left
    unfold startCreditTimerIfNeeded
    rw [h]
  · by_cases ht : s.timerStarted = true
    · left
      unfold startCreditTimerIfNeeded
      rw [h]
      dsimp only
      rw [if_pos ht]
    · right
      refine ⟨s, rfl, by simpa using ht, ?_⟩
      unfold startCreditTimerIfNeeded
      rw [h]
      dsimp only
      rw [if_neg ht]

lemma startCredit_inv (now : Nat) (gs : GameState) (h : Inv gs) :
    Inv (startCreditTimerIfNeeded now gs) := by
  rcases startCredit_cases now gs with heq | ⟨s, hA, -, heq⟩ <;> rw [heq]
  · exact h
  · exact inv_transfer gs _ rfl (fun x => x) (fun k hk => hk) (by rw [hA]; rfl) h

lemma startCredit_store (now : Nat) (gs : GameState) :
    (startCreditTimerIfNeeded now gs).store = gs.store := by
  rcases startCredit_cases now gs with heq | ⟨s, hA, -, heq⟩ <;> rw [heq]

lemma startCredit_events (now : Nat) (gs : GameState) :
    (startCreditTimerIfNeeded now gs).events = gs.events := by
  rcases startCredit_cases now gs with heq | ⟨s, hA, -, heq⟩ <;> rw [heq]

lemma consume_cases (gs : GameState) :
    (consumeOneCreditSafely gs).1 = gs ∨
    ∃ s, gs.active = some s ∧ s.creditConsumed = false ∧
      (consumeOneCreditSafely gs).1 =
        { gs with store := useOneCredit gs.store s.donationId,
                  active := some { s with creditConsumed := true,
                                          creditsRemaining := s.creditsRemaining - 1 } } := by
  rcases h : gs.active with _ | s
  · left
    unfold consumeOneCreditSafely
    rw [h]
  · by_cases hc : s.creditConsumed = true
    · left
      unfold consumeOneCreditSafely
      rw [h]
      dsimp only
      rw [if_pos hc]
    · right
      refine ⟨s, rfl, by simpa using hc, ?_⟩
      unfold consumeOneCreditSafely
      rw [h]
      dsimp only
      rw [if_neg hc]

lemma acTo_useOneCredit {k : Nat} (store : Store) (tid : Nat) :
    (∀ d ∈ store, d.status = .active → d.id = k) →
    ∀ d ∈ useOneCredit store tid, d.status = .active → d.id = k :=
  acTo_statusSafe _ _ (by intro d; split <;> rfl) (by intro d; split <;> rfl)

lemma noActives_useOneCredit (store : Store) (tid : Nat) :
    NoActives store → NoActives (useOneCredit store tid) :=
  noActives_statusSafe _ _ (by intro d; split <;> rfl)

lemma consume_inv (gs : GameState) (h : Inv gs) : Inv (consumeOneCreditSafely gs).1 := by
  rcases consume_cases gs with heq | ⟨s, hA, -, heq⟩ <;> rw [heq]
  · exact h
  · exact inv_transfer gs _ (ids_useOneCredit _ _) (noActives_useOneCredit _ _)
      (fun k => acTo_useOneCredit _ _) (by rw [hA]; rfl) h

lemma consume_events (gs : GameState) : ((consumeOneCreditSafely gs).1).events = gs.events := by
  rcases consume_cases gs with heq | ⟨s, hA, -, heq⟩ <;> rw [heq]

lemma consume_pulsed (gs : GameState) (id : Nat) (h : pulsedTrue id gs.store) :
    pulsedTrue id ((consumeOneCreditSafely gs).1).store := by
  rcases consume_cases gs with heq | ⟨s, hA, -, heq⟩ <;> rw [heq]
  · exact h
  · exact pulsed_useOneCredit _ _ _ h

lemma finish_inv (now : Nat) (gs : GameState) (h : Inv gs) :
    Inv (finishCreditNormally now gs) := by
  unfold finishCreditNormally
  rcases hA : gs.active with _ | s
  · exact h
  · rcases hcon : consumeOneCreditSafely gs with ⟨gs1, b⟩
    have hInv1 : Inv gs1 := by
      have hx := consume_inv gs h
      rw [hcon] at hx
      exact hx
    rcases b with _ | _
    · exact hInv1
    · dsimp only
      rcases hA1 : gs1.active with _ | s1
    -- no session left after consuming (unreachable in the source)
      · exact hInv1
      · dsimp only
        split_ifs with hrem
        · apply schedule_inv
          exact inv_transfer gs1 _ rfl (fun x => x) (fun k hk => hk) (by rw [hA1]; rfl) hInv1
        · exact endActivePlayer_inv now gs1 hInv1

lemma finish_events (now : Nat) (gs : GameState) :
    (finishCreditNormally now gs).events = gs.events := by
  unfold finishCreditNormally
  rcases hA : gs.active with _ | s
  · rfl
  · rcases hcon : consumeOneCreditSafely gs with ⟨gs1, b⟩
    have hEv1 : gs1.events = gs.events := by
      have hx := consume_events gs
      rw [hcon] at hx
      exact hx
    rcases b with _ | _
    · exact hEv1
    · dsimp only
      rcases hA1 : gs1.active with _ | s1
      · exact hEv1
      · dsimp only
        split_ifs with hrem
        · rw [schedule_events]
          exact hEv1
        · rw [endActivePlayer_events]
          exact hEv1

lemma finish_pulsed (now : Nat) (gs : GameState) (id : Nat) (h : pulsedTrue id gs.store) :
    pulsedTrue id (finishCreditNormally now gs).store := by
  unfold finishCreditNormally
  rcases hA : gs.active with _ | s
  · exact h
  · rcases hcon : consumeOneCreditSafely gs with ⟨gs1, b⟩
    have hP1 : pulsedTrue id gs1.store := by
      have hx := consume_pulsed gs id h
      rw [hcon] at hx
      exact hx
    rcases b with _ | _
    · exact hP1
    · dsimp only
      rcases hA1 : gs1.active with _ | s1
      · exact hP1
      · dsimp only
        split_ifs with hrem
        · rw [schedule_store]
          exact hP1
        · exact endActivePlayer_pulsed now gs1 id hP1

lemma creditFire_inv (seq now : Nat) (gs : GameState) (h : Inv gs) :
    Inv (creditTimerFire seq now gs) := by
  unfold creditTimerFire
  rcases hA : gs.active with _ | s
  · exact h
  · dsimp only
    split_ifs with hseq
    · exact h
    · exact finish_inv now gs h

lemma creditFire_events (seq now : Nat) (gs : GameState) :
    (creditTimerFire seq now gs).events = gs.events := by
  unfold creditTimerFire
  rcases hA : gs.active with _ | s
  · rfl
  · dsimp only
    split_ifs with hseq
    · rfl
    · exact finish_events now gs

lemma creditFire_pulsed (seq now : Nat) (gs : GameState) (id : Nat)
    (h : pulsedTrue id gs.store) : pulsedTrue id (creditTimerFire seq now gs).store := by
  unfold creditTimerFire
  rcases hA : gs.active with _ | s
  · exact h
  · dsimp only
    split_ifs with hseq
    · exact h
    · exact finish_pulsed now gs id h

lemma grabFire_inv (seq now : Nat) (gs : GameState) (h : Inv gs) :
    Inv (grabTimerFire seq now gs) := by
  unfold grabTimerFire
  rcases hA : gs.active with _ | s
  · exact h
  · dsimp only
    split_ifs with hseq
    · exact h
    · rcases hcon : consumeOneCreditSafely gs with ⟨gs1, b⟩
      have hInv1 : Inv gs1 := by
        have hx := consume_inv gs h
        rw [hcon] at hx
        exact hx
      rcases b with _ | _
      · exact hInv1
      · dsimp only
        rcases hA1 : gs1.active with _ | s1
        · exact hInv1
        · dsimp only
          split_ifs with hrem
          · apply schedule_inv
            exact inv_transfer gs1 _ rfl (fun x => x) (fun k hk => hk) (by rw [hA1]; rfl) hInv1
          · exact endActivePlayer_inv now gs1 hInv1

lemma grabFire_pulsed (seq now : Nat) (gs : GameState) (id : Nat)
    (h : pulsedTrue id gs.store) : pulsedTrue id (grabTimerFire seq now gs).store := by
  unfold grabTimerFire
  rcases hA : gs.active with _ | s
  · exact h
  · dsimp only
    split_ifs with hseq
    · exact h
    · rcases hcon : consumeOneCreditSafely gs with ⟨gs1, b⟩
      have hP1 : pulsedTrue id gs1.store := by
        have hx := consume_pulsed gs id h
        rw [hcon] at hx
        exact hx
      rcases b with _ | _
      · exact hP1
      · dsimp only
        rcases hA1 : gs1.active with _ | s1
        · exact hP1
        · dsimp only
          split_ifs with hrem
          · rw [schedule_store]
            exact hP1
          · exact endActivePlayer_pulsed now gs1 id hP1

lemma firstMoveFire_inv (now : Nat) (gs : GameState) (h : Inv gs) :
    Inv (firstMoveTimerFire now gs) := by
  unfold firstMoveTimerFire
  rcases hA : gs.active with _ | s
  · exact h
  · dsimp only
    split_ifs with hm hw
    · exact h
    · have hend := endActivePlayer_inv now gs h
      exact inv_transfer (endActivePlayer now gs) _ rfl (fun x => x) (fun k hk => hk) rfl hend
    · exact schedule_inv now gs h

lemma firstMoveFire_pulsed (now : Nat) (gs : GameState) (id : Nat)
    (h : pulsedTrue id gs.store) : pulsedTrue id (firstMoveTimerFire now gs).store := by
  unfold firstMoveTimerFire
  rcases hA : gs.active with _ | s
  · exact h
  · dsimp only
    split_ifs with hm hw
    · exact h
    · exact endActivePlayer_pulsed now gs id h
    · rw [schedule_store]
      exact h

lemma grab_cases (now : Nat) (gs : GameState) :
    (gs.active = none ∧ handleGrabIfAllowed now gs = (gs, .err "no_active")) ∨
    (∃ s0, gs.active = some s0 ∧ s0.grabUsed = true ∧
       handleGrabIfAllowed now gs = (gs, .err "grab_already_used")) ∨
    (∃ (gs1 : GameState) (s : Session),
       Option.map Session.donationId gs1.active = Option.map Session.donationId gs.active ∧
       gs1.store = gs.store ∧ gs1.events = gs.events ∧ gs1.active = some s ∧
       handleGrabIfAllowed now gs =
         ({ gs1 with active := some { s with grabUsed := true,
                                             creditEndsAt := some (now + GRAB_FINISH_MS),
                                             creditSeq := s.creditSeq + 1,
                                             creditConsumed := false },
                     pulses := gs1.pulses ++ [Pulse.grab] }, .ok)) := by
  rcases hA : gs.active with _ | s0
  · left
    refine ⟨rfl, ?_⟩
    unfold handleGrabIfAllowed
    rw [hA]
  · by_cases hg : s0.grabUsed = true
    · right
      left
      refine ⟨s0, rfl, hg, ?_⟩
      unfold handleGrabIfAllowed
      rw [hA]
      dsimp only
      rw [if_pos hg]
    · right
      right
      by_cases ht : s0.timerStarted = false
      · have hsc : startCreditTimerIfNeeded now gs =
            { gs with active := some { s0 with hasMoved := true, timerStarted := true,
                                               creditEndsAt := some (now + CREDIT_MS),
                                               creditSeq := s0.creditSeq + 1,
                                               creditConsumed := false } } := by
          unfold startCreditTimerIfNeeded
          rw [hA]
          dsimp only
          rw [if_neg (by simp [ht])]
        refine ⟨startCreditTimerIfNeeded now gs,
          { s0 with hasMoved := true, timerStarted := true,
                    creditEndsAt := some (now + CREDIT_MS),
                    creditSeq := s0.creditSeq + 1, creditConsumed := false },
          ?_, ?_, ?_, ?_, ?_⟩
        · rw [hsc]
          exact rfl
        · rw [hsc]
        · rw [hsc]
        · rw [hsc]
        · unfold handleGrabIfAllowed
          rw [hA]
          dsimp only
          rw [if_neg hg]
          rw [if_pos ht, hsc]
      · refine ⟨gs, s0, ?_, rfl, rfl, hA, ?_⟩
        · rw [hA]
        · unfold handleGrabIfAllowed
          rw [hA]
          dsimp only
          rw [if_neg hg]
          rw [if_neg ht, hA]

lemma grab_store (now : Nat) (gs : GameState) :
    ((handleGrabIfAllowed now gs).1).store = gs.store := by
  rcases grab_cases now gs with ⟨-, heq⟩ | ⟨s0, -, -, heq⟩ | ⟨gs1, s, -, hst, -, -, heq⟩ <;>
    rw [heq]
  exact hst

lemma grab_events (now : Nat) (gs : GameState) :
    ((handleGrabIfAllowed now gs).1).events = gs.events := by
  rcases grab_cases now gs with ⟨-, heq⟩ | ⟨s0, -, -, heq⟩ | ⟨gs1, s, -, -, hev, -, heq⟩ <;>
    rw [heq]
  exact hev

lemma grab_actId (now : Nat) (gs : GameState) :
    Option.map Session.donationId ((handleGrabIfAllowed now gs).1).active
      = Option.map Session.donationId gs.active := by
  rcases grab_cases now gs with ⟨-, heq⟩ | ⟨s0, -, -, heq⟩ | ⟨gs1, s, hid, -, -, hact, heq⟩ <;>
    rw [heq]
  rw [← hid, hact]
  exact rfl

lemma grab_inv (now : Nat) (gs : GameState) (h : Inv gs) :
    Inv ((handleGrabIfAllowed now gs).1) := by
  have h1 := grab_store now gs
  exact inv_transfer gs _ (by rw [h1]) (by rw [h1]; exact fun x => x)
    (by rw [h1]; exact fun k hk => hk) (grab_actId now gs) h

lemma inv_transfer_perm (gs gs1 : GameState)
    (hids : (ids gs1.store).Perm (ids gs.store))
    (hna : NoActives gs.store → NoActives gs1.store)
    (hac : ∀ k, (∀ d ∈ gs.store, d.status = .active → d.id = k) →
           ∀ d ∈ gs1.store, d.status = .active → d.id = k)
    (hact : Option.map Session.donationId gs1.active = Option.map Session.donationId gs.active)
    (h : Inv gs) : Inv gs1 := by
  obtain ⟨hnd, h1, h2⟩ := h
  refine ⟨hids.nodup_iff.mpr hnd, ?_, ?_⟩
  · intro hn
    rw [hn] at hact
    rcases hA : gs.active with _ | s
    · exact hna (h1 hA)
    · rw [hA] at hact
      simp at hact
  · intro s1 hs1
    rw [hs1] at hact
    rcases hA : gs.active with _ | s
    · rw [hA] at hact
      simp at hact
    · rw [hA] at hact
      simp only [Option.map_some', Option.some.injEq] at hact
      intro d hd hdact
      rw [hact]
      exact hac s.donationId (h2 s hA) d hd hdact

lemma ids_split_perm (store : Store) (tid : Nat) (g : Donation → Donation)
    (hid : ∀ d, (g d).id = d.id) :
    (ids ((store.filter fun d => d.id ≠ tid) ++ (store.filter fun d => d.id = tid).map g)).Perm
      (ids store) := by
  unfold ids
  rw [List.map_append, List.map_map]
  have h1 : (store.filter fun d => d.id = tid).map ((fun d => d.id) ∘ g)
      = (store.filter fun d => d.id = tid).map (fun d => d.id) := by
    congr 1
    funext d
    exact hid d
  rw [h1]
  have h2 : store.filter (fun d => d.id ≠ tid)
      = store.filter (fun d => !(decide (d.id = tid))) := by
    apply List.filter_congr
    intro d _
    exact decide_not
  rw [h2, ← List.map_append]
  exact (List.Perm.trans List.perm_append_comm
    (List.filter_append_perm _ store)).map _

lemma acTo_split {k : Nat} (store : Store) (tid : Nat) (g : Donation → Donation)
    (hgst : ∀ d, (g d).status = Status.waiting)
    (h : ∀ d ∈ store, d.status = .active → d.id = k) :
    ∀ d ∈ (store.filter fun d => d.id ≠ tid) ++ (store.filter fun d => d.id = tid).map g,
      d.status = .active → d.id = k := by
  intro d hd hact
  rcases List.mem_append.1 hd with hl | hr
  · exact h d (List.mem_filter.1 hl).1 hact
  · obtain ⟨d0, hd0, rfl⟩ := List.mem_map.1 hr
    rw [hgst d0] at hact
    cases hact

lemma noActives_split (store : Store) (tid : Nat) (g : Donation → Donation)
    (hgst : ∀ d, (g d).status = Status.waiting) (h : NoActives store) :
    NoActives ((store.filter fun d => d.id ≠ tid) ++ (store.filter fun d => d.id = tid).map g) := by
  intro d hd hact
  rcases List.mem_append.1 hd with hl | hr
  · exact h d (List.mem_filter.1 hl).1 hact
  · obtain ⟨d0, hd0, rfl⟩ := List.mem_map.1 hr
    rw [hgst d0] at hact
    cases hact

lemma pulsed_split (store : Store) (tid : Nat) (g : Donation → Donation) (id : Nat)
    (hid : ∀ d, (g d).id = d.id)
    (hp : ∀ d, d.creditsPulsed = true → (g d).creditsPulsed = true) :
    pulsedTrue id store →
    pulsedTrue id ((store.filter fun d => d.id ≠ tid) ++ (store.filter fun d => d.id = tid).map g) := by
  rintro ⟨d, hd, hdid, hdp⟩
  by_cases hc : d.id = tid
  · refine ⟨g d, List.mem_append_right _
      (List.mem_map_of_mem _ (List.mem_filter.2 ⟨hd, by simp [hc]⟩)), ?_, hp d hdp⟩
    rw [hid d]
    exact hdid
  · exact ⟨d, List.mem_append_left _ (List.mem_filter.2 ⟨hd, by simp [hc]⟩), hdid, hdp⟩

lemma acTo_setStatus {k : Nat} (store : Store) (tid : Nat) (st : Status)
    (hst : st ≠ Status.active) :
    (∀ d ∈ store, d.status = .active → d.id = k) →
    ∀ d ∈ setDonationStatus store tid st, d.status = .active → d.id = k := by
  refine acTo_map _ _ (by intro d; split <;> rfl) ?_
  intro d hd
  by_cases hc : d.id = tid
  · rw [if_pos hc] at hd
    exact absurd hd hst
  · rw [if_neg hc] at hd
    exact hd

lemma ids_adjustCredits (store : Store) (id : Nat) (delta : Int) :
    ids (adjustCredits store id delta) = ids store :=
  ids_map_of _ _ (by intro d; split <;> rfl)

lemma ids_setCreditsTotal (store : Store) (id : Nat) (v : Int) :
    ids (setCreditsTotal store id v) = ids store :=
  ids_map_of _ _ (by intro d; split <;> rfl)

lemma ids_setCreditsUsed (store : Store) (id : Nat) (v : Int) :
    ids (setCreditsUsed store id v) = ids store :=
  ids_map_of _ _ (by intro d; split <;> rfl)

lemma paid_inv (now : Nat) (id : Nat) (credits : Int) (gs : GameState) (h : Inv gs) :
    Inv (handlePaidDonation now id credits gs) := by
  apply maybeStartNext_inv
  refine inv_transfer_perm gs _ ?_ ?_ ?_ rfl h
  · exact ids_split_perm gs.store id _ (fun d => rfl)
  · intro hna
    exact noActives_split _ _ _ (fun d => rfl) hna
  · intro k hk
    exact acTo_split _ _ _ (fun d => rfl) hk

lemma paid_pulsed (now : Nat) (id : Nat) (credits : Int) (gs : GameState) (pid : Nat)
    (h : pulsedTrue pid gs.store) : pulsedTrue pid (handlePaidDonation now id credits gs).store := by
  apply maybeStartNext_pulsed
  exact pulsed_split _ _ _ _ (fun d => rfl) (fun d hp => hp) h

lemma requeue_inv (now : Nat) (id : Nat) (gs : GameState) (h : Inv gs) :
    Inv (adminRequeue now id gs) := by
  apply maybeStartNext_inv
  refine inv_transfer_perm gs _ ?_ ?_ ?_ rfl h
  · exact ids_split_perm gs.store id _ (fun d => rfl)
  · intro hna
    exact noActives_split _ _ _ (fun d => rfl) hna
  · intro k hk
    exact acTo_split _ _ _ (fun d => rfl) hk

lemma requeue_pulsed (now : Nat) (id : Nat) (gs : GameState) (pid : Nat)
    (h : pulsedTrue pid gs.store) : pulsedTrue pid (adminRequeue now id gs).store := by
  apply maybeStartNext_pulsed
  exact pulsed_split _ _ _ _ (fun d => rfl) (fun d hp => hp) h

lemma safeForceEnd_inv (now : Nat) (gs : GameState) (h : Inv gs) :
    Inv (safeForceEndActive now gs) := by
  unfold safeForceEndActive
  rcases hA : gs.active with _ | s
  · exact maybeStartNext_inv now gs h
  · dsimp only
    apply maybeStartNext_inv
    refine inv_transfer gs _ (ids_setStatus _ _ _) ?_ ?_ (by rw [hA]) h
    · intro hna
      exact noActives_setStatus _ _ _ (by intro hx; cases hx) hna
    · intro k hk
      exact acTo_setStatus _ _ _ (by intro hx; cases hx) hk

lemma safeForceEnd_pulsed (now : Nat) (gs : GameState) (id : Nat)
    (h : pulsedTrue id gs.store) : pulsedTrue id (safeForceEndActive now gs).store := by
  unfold safeForceEndActive
  rcases hA : gs.active with _ | s
  · exact maybeStartNext_pulsed now gs id h
  · dsimp only
    apply maybeStartNext_pulsed
    exact pulsed_setStatus _ _ _ _ h

lemma adminAdd_inv (now : Nat) (id : Nat) (delta : Int) (gs : GameState) (h : Inv gs) :
    Inv (adminAddCredits now id delta gs) := by
  apply maybeStartNext_inv
  refine inv_transfer gs _ (ids_adjustCredits _ _ _) ?_ ?_ rfl h
  · exact noActives_statusSafe _ _ (by intro d; split <;> rfl)
  · intro k
    exact acTo_statusSafe _ _ (by intro d; split <;> rfl) (by intro d; split <;> rfl)

lemma adminTotal_inv (now : Nat) (id : Nat) (v : Int) (gs : GameState) (h : Inv gs) :
    Inv (adminSetCreditsTotal now id v gs) := by
  apply maybeStartNext_inv
  refine inv_transfer gs _ (ids_setCreditsTotal _ _ _) ?_ ?_ rfl h
  · exact noActives_statusSafe _ _ (by intro d; split <;> rfl)
  · intro k
    exact acTo_statusSafe _ _ (by intro d; split <;> rfl) (by intro d; split <;> rfl)

lemma adminUsed_inv (now : Nat) (id : Nat) (v : Int) (gs : GameState) (h : Inv gs) :
    Inv (adminSetCreditsUsed now id v gs) := by
  apply maybeStartNext_inv
  refine inv_transfer gs _ (ids_setCreditsUsed _ _ _) ?_ ?_ rfl h
  · exact noActives_statusSafe _ _ (by intro d; split <;> rfl)
  · intro k
    exact acTo_statusSafe _ _ (by intro d; split <;> rfl) (by intro d; split <;> rfl)

lemma adminAdd_pulsed (now : Nat) (id : Nat) (delta : Int) (gs : GameState) (pid : Nat)
    (h : pulsedTrue pid gs.store) : pulsedTrue pid (adminAddCredits now id delta gs).store := by
  apply maybeStartNext_pulsed
  exact pulsed_map _ _ _ (by intro d; split <;> rfl) (by intro d hp; split <;> exact hp) h

lemma adminTotal_pulsed (now : Nat) (id : Nat) (v : Int) (gs : GameState) (pid : Nat)
    (h : pulsedTrue pid gs.store) : pulsedTrue pid (adminSetCreditsTotal now id v gs).store := by
  apply maybeStartNext_pulsed
  exact pulsed_map _ _ _ (by intro d; split <;> rfl) (by intro d hp; split <;> exact hp) h

lemma adminUsed_pulsed (now : Nat) (id : Nat) (v : Int) (gs : GameState) (pid : Nat)
    (h : pulsedTrue pid gs.store) : pulsedTrue pid (adminSetCreditsUsed now id v gs).store := by
  apply maybeStartNext_pulsed
  exact pulsed_map _ _ _ (by intro d; split <;> rfl) (by intro d hp; split <;> exact hp) h

lemma adminStatus_inv (now : Nat) (id : Nat) (st : Status) (gs : GameState) (h : Inv gs) :
    Inv (adminSetStatus now id st gs) := by
  unfold adminSetStatus
  split_ifs with hst hguard
  · apply maybeStartNext_inv
    refine inv_transfer gs _ (ids_setStatus _ _ _) ?_ ?_ rfl h
    · intro hna
      exact noActives_setStatus _ _ _ (by intro hx; cases hx) hna
    · intro k hk
      exact acTo_setStatus _ _ _ (by intro hx; cases hx) hk
  · apply maybeStartNext_inv
    have hend := safeForceEnd_inv now gs h
    refine inv_transfer (safeForceEndActive now gs) _ (ids_setStatus _ _ _) ?_ ?_ rfl hend
    · intro hna
      exact noActives_setStatus _ _ _ hst hna
    · intro k hk
      exact acTo_setStatus _ _ _ hst hk
  · apply maybeStartNext_inv
    refine inv_transfer gs _ (ids_setStatus _ _ _) ?_ ?_ rfl h
    · intro hna
      exact noActives_setStatus _ _ _ hst hna
    · intro k hk
      exact acTo_setStatus _ _ _ hst hk

lemma adminStatus_pulsed (now : Nat) (id : Nat) (st : Status) (gs : GameState) (pid : Nat)
    (h : pulsedTrue pid gs.store) : pulsedTrue pid (adminSetStatus now id st gs).store := by
  unfold adminSetStatus
  split_ifs with hst hguard
  · apply maybeStartNext_pulsed
    exact pulsed_setStatus _ _ _ _ h
  · apply maybeStartNext_pulsed
    exact pulsed_setStatus _ _ _ _ (safeForceEnd_pulsed now gs pid h)
  · apply maybeStartNext_pulsed
    exact pulsed_setStatus _ _ _ _ h

lemma create_inv (id : Nat) (gs : GameState) (hfresh : id ∉ ids gs.store) (h : Inv gs) :
    Inv (createIntentOp id gs) := by
  refine ⟨?_, ?_, ?_⟩
  · show (ids (gs.store ++ [(⟨id, 0, 0, false, .created⟩ : Donation)])).Nodup
    unfold ids
    rw [List.map_append]
    refine List.Nodup.append h.1 (by simp) ?_
    intro a ha hb
    simp only [List.map_cons, List.map_nil, List.mem_singleton] at hb
    rw [hb] at ha
    exact hfresh ha
  · intro hn d hd
    rcases List.mem_append.1 hd with hl | hr
    · exact h.2.1 hn d hl
    · simp only [List.mem_singleton] at hr
      rw [hr]
      intro hx
      cases hx
  · intro s hs d hd hact
    rcases List.mem_append.1 hd with hl | hr
    · exact h.2.2 s hs d hl hact
    · simp only [List.mem_singleton] at hr
      rw [hr] at hact
      cases hact

lemma create_pulsed (id : Nat) (gs : GameState) (pid : Nat)
    (h : pulsedTrue pid gs.store) : pulsedTrue pid (createIntentOp id gs).store := by
  obtain ⟨d, hd, hdid, hdp⟩ := h
  exact ⟨d, List.mem_append_left _ hd, hdid, hdp⟩

lemma noActives_recover (store : Store) : NoActives (recoverAfterRestart store) := by
  apply noActives_sweep
  intro d hd
  obtain ⟨d0, hd0, rfl⟩ := List.mem_map.1 hd
  by_cases hc : d0.status = Status.active
  · rw [if_pos hc]
    intro hx
    cases hx
  · rw [if_neg hc]
    exact hc

lemma ids_recover (store : Store) : ids (recoverAfterRestart store) = ids store := by
  unfold recoverAfterRestart
  rw [ids_sweepZeroCredit]
  exact ids_map_of _ _ (by intro d; split <;> rfl)

/-- Every external transition preserves the single-active invariant. -/
lemma step_inv {s t : GameState} (hs : Step s t) (h : Inv s) : Inv t := by
  cases hs with
  | create id hfresh => exact create_inv id s hfresh h
  | paid now id credits => exact paid_inv now id credits s h
  | startNext now => exact maybeStartNext_inv now s h
  | move now => exact startCredit_inv now s h
  | grab now => exact grab_inv now s h
  | creditFire seq now => exact creditFire_inv seq now s h
  | grabFire seq now => exact grabFire_inv seq now s h
  | firstMoveFire now => exact firstMoveFire_inv now s h
  | endActive now => exact endActivePlayer_inv now s h
  | adminEnd now => exact safeForceEnd_inv now s h
  | adminRequeueStep now id => exact requeue_inv now id s h
  | adminAdd now id delta => exact adminAdd_inv now id delta s h
  | adminTotal now id v => exact adminTotal_inv now id v s h
  | adminUsed now id v => exact adminUsed_inv now id v s h
  | adminStatus now id st => exact adminStatus_inv now id st s h

/-- Every external transition preserves a set creditsPulsed flag. -/
lemma step_pulsed {s t : GameState} (id : Nat) (hs : Step s t)
    (h : pulsedTrue id s.store) : pulsedTrue id t.store := by
  cases hs with
  | create cid hfresh => exact create_pulsed cid s id h
  | paid now pid credits => exact paid_pulsed now pid credits s id h
  | startNext now => exact maybeStartNext_pulsed now s id h
  | move now =>
    rw [startCredit_store]
    exact h
  | grab now =>
    rw [grab_store]
    exact h
  | creditFire seq now => exact creditFire_pulsed seq now s id h
  | grabFire seq now => exact grabFire_pulsed seq now s id h
  | firstMoveFire now => exact firstMoveFire_pulsed now s id h
  | endActive now => exact endActivePlayer_pulsed now s id h
  | adminEnd now => exact safeForceEnd_pulsed now s id h
  | adminRequeueStep now rid => exact requeue_pulsed now rid s id h
  | adminAdd now aid delta => exact adminAdd_pulsed now aid delta s id h
  | adminTotal now aid v => exact adminTotal_pulsed now aid v s id h
  | adminUsed now aid v => exact adminUsed_pulsed now aid v s id h
  | adminStatus now aid st => exact adminStatus_pulsed now aid st s id h

lemma reachable_inv {gs : GameState} (h : Reachable gs) : Inv gs := by
  induction h with
  | boot store hnd =>
    refine ⟨?_, ?_, ?_⟩
    · show (ids (recoverAfterRestart store)).Nodup
      rw [ids_recover]
      exact hnd
    · intro _
      exact noActives_recover store
    · intro s hs
      cases hs
  | step _ hstep ih => exact step_inv hstep ih

lemma count_le_one (store : Store) (k : Nat) (hn : (ids store).Nodup)
    (h : ∀ d ∈ store, d.status = .active → d.id = k) :
    store.countP (fun d => d.status = .active) ≤ 1 := by
  induction store with
  | nil => simp
  | cons d t ih =>
    rw [ids, List.map_cons, List.nodup_cons] at hn
    simp only [List.countP_cons]
    by_cases hd : d.status = Status.active
    · rw [if_pos (by simpa using hd)]
      have hdk : d.id = k := h d (List.mem_cons_self d t) hd
      have hzero : t.countP (fun d => d.status = Status.active) = 0 := by
        rw [List.countP_eq_zero]
        intro e he hacte
        have heact : e.status = Status.active := of_decide_eq_true hacte
        have hek : e.id = k := h e (List.mem_cons_of_mem _ he) heact
        apply hn.1
        rw [show d.id = e.id from hdk.trans hek.symm]
        exact List.mem_map_of_mem _ he
      omega
    · rw [if_neg (by simpa using hd)]
      have := ih hn.2 (fun e he hacte => h e (List.mem_cons_of_mem _ he) hacte)
      omega

lemma pulsedTrue_markPulsed_self (store : Store) (id : Nat) (d0 : Donation)
    (hm : d0 ∈ store) (hid : d0.id = id) : pulsedTrue id (markCreditsPulsed store id) := by
  refine ⟨{ d0 with creditsPulsed := true }, ?_, hid, rfl⟩
  refine List.mem_map.2 ⟨d0, hm, ?_⟩
  rw [if_pos hid]

lemma pulsedTrue_setStatus_of (store : Store) (tid : Nat) (st : Status) (d0 : Donation)
    (hm : d0 ∈ store) (hid : d0.id = tid) (hp : d0.creditsPulsed = true) :
    pulsedTrue tid (setDonationStatus store tid st) := by
  refine ⟨{ d0 with status := st }, ?_, hid, hp⟩
  refine List.mem_map.2 ⟨d0, hm, ?_⟩
  rw [if_pos hid]

lemma creditInv_map (store : Store) (g : Donation → Donation)
    (hg : ∀ d, 0 ≤ d.creditsUsed ∧ d.creditsUsed ≤ d.creditsTotal →
          0 ≤ (g d).creditsUsed ∧ (g d).creditsUsed ≤ (g d).creditsTotal)
    (h : CreditInv store) : CreditInv (store.map g) := by
  intro d hd
  obtain ⟨d0, hd0, rfl⟩ := List.mem_map.1 hd
  exact hg d0 (h d0 hd0)

/-- C1 (amended): the credit-expiry and grab-finish callbacks perform the epoch
    check themselves and are no-ops when the session is gone or their captured
    sequence is stale; the first-move timeout callback (game.js lines 189-191)
    checks only that a session exists and that hasMoved is still false - it
    captures no sequence number and performs no epoch comparison. -/
theorem claim_C1_amended (seq now : Nat) (gs : GameState) (s : Session) :
    (gs.active = none → creditTimerFire seq now gs = gs)
    ∧ (gs.active = some s → s.creditSeq ≠ seq → creditTimerFire seq now gs = gs)
    ∧ (gs.active = none → grabTimerFire seq now gs = gs)
    ∧ (gs.active = some s → s.creditSeq ≠ seq → grabTimerFire seq now gs = gs)
    ∧ (gs.active = none → firstMoveTimerFire now gs = gs)
    ∧ (gs.active = some s → s.hasMoved = true → firstMoveTimerFire now gs = gs) := by
  refine ⟨?_, ?_, ?_, ?_, ?_, ?_⟩
  · intro h
    unfold creditTimerFire
    rw [h]
  · intro h hseq
    unfold creditTimerFire
    rw [h]
    dsimp only
    rw [if_pos hseq]
  · intro h
    unfold grabTimerFire
    rw [h]
  · intro h hseq
    unfold grabTimerFire
    rw [h]
    dsimp only
    rw [if_pos hseq]
  · intro h
    unfold firstMoveTimerFire
    rw [h]
  · intro h hm
    unfold firstMoveTimerFire
    rw [h]
    dsimp only
    rw [if_pos hm]

/-- C1 counterexample: in gsStale the session's live epoch is 1, so a first-move
    timer scheduled when the session was created (epoch 0) is stale; firing the
    handler nevertheless mutates the state (it ends the session), because the
    handler performs no epoch check - refuting the claim that every timer
    handler discards itself on an epoch mismatch. -/
theorem claim_C1_cex :
    gsStale.active = some sStale ∧ sStale.creditSeq = 1 ∧
    firstMoveTimerFire 100 gsStale ≠ gsStale := by
  refine ⟨rfl, rfl, ?_⟩
  decide

theorem claim_C1_witness :
    creditTimerFire 0 50000 gsStale = gsStale ∧
    grabTimerFire 0 50000 gsStale = gsStale ∧
    firstMoveTimerFire 50000 gsC8 = gsC8 ∧
    creditTimerFire 3 1 gsEmpty = gsEmpty :=
  ⟨(claim_C1_amended 0 50000 gsStale sStale).2.1 rfl (by decide),
   (claim_C1_amended 0 50000 gsStale sStale).2.2.2.1 rfl (by decide),
   (claim_C1_amended 0 50000 gsC8 sC8).2.2.2.2.2 rfl rfl,
   (claim_C1_amended 3 1 gsEmpty sStale).1 rfl⟩

/-- C2: consumeOneCreditSafely is idempotent per epoch: a no-op once
    creditConsumed is set, otherwise it sets the flag, persists exactly one
    clamped credit increment and decrements creditsRemaining; in the scenario
    (A with 1 credit moves, then grabs before expiry, grab-finish fires, then
    the superseded credit timer fires) exactly one credit is consumed and the
    session ends exactly once. -/
theorem claim_C2 (gs : GameState) (s : Session) :
    (gs.active = some s → s.creditConsumed = true → consumeOneCreditSafely gs = (gs, false))
    ∧ (gs.active = some s → s.creditConsumed = false →
       consumeOneCreditSafely gs =
         ({ gs with store := useOneCredit gs.store s.donationId,
                    active := some { s with creditConsumed := true,
                                            creditsRemaining := s.creditsRemaining - 1 } },
          true))
    ∧ (handleGrabIfAllowed 1000 gsMoved).2 = .ok
    ∧ gsFinished.store
        = [{ id := 1, creditsTotal := 3, creditsUsed := 3, creditsPulsed := true,
             status := .done }]
    ∧ gsFinished.active = none
    ∧ creditTimerFire 1 35000 gsFinished = gsFinished := by
  refine ⟨?_, ?_, by decide, by decide, by decide, by decide⟩
  · intro hA hc
    unfold consumeOneCreditSafely
    rw [hA]
    dsimp only
    rw [if_pos hc]
  · intro hA hc
    unfold consumeOneCreditSafely
    rw [hA]
    dsimp only
    rw [if_neg (by simp [hc])]

theorem claim_C2_witness :
    consumeOneCreditSafely gsConsumed = (gsConsumed, false) ∧
    consumeOneCreditSafely gsOneCredit =
      ({ gsOneCredit with store := useOneCredit gsOneCredit.store sOne.donationId,
                          active := some { sOne with creditConsumed := true,
                                                     creditsRemaining :=
                                                       sOne.creditsRemaining - 1 } },
       true) :=
  ⟨(claim_C2 gsConsumed sConsumed).1 rfl rfl,
   (claim_C2 gsOneCredit sOne).2.1 rfl rfl⟩

/-- C3: in every reachable state at most one participant row has status active
    (at most one Active Session exists by the type of the state: an Option),
    and maybeStartNext is a no-op whenever an Active Session exists - its
    presence is the sole activation gate. -/
theorem claim_C3 (gs : GameState) (now : Nat) (h : Reachable gs) :
    gs.store.countP (fun d => d.status = .active) ≤ 1 ∧
    (gs.active.isSome = true → maybeStartNext now gs = gs) := by
  have hinv := reachable_inv h
  constructor
  · rcases hA : gs.active with _ | s
    · have hna := hinv.2.1 hA
      refine count_le_one gs.store 0 hinv.1 ?_
      intro d hd hact
      exact absurd hact (hna d hd)
    · exact count_le_one gs.store s.donationId hinv.1 (hinv.2.2 s hA)
  · intro hs
    rcases hA : gs.active with _ | s
    · simp [hA] at hs
    · exact maybeStartNext_some now gs s hA

theorem claim_C3_witness :
    gsRun.store.countP (fun d => d.status = .active) ≤ 1 ∧
    (gsRun.active.isSome = true → maybeStartNext 99 gsRun = gsRun) :=
  claim_C3 gsRun 99
    (Reachable.step (Reachable.boot _ (by decide)) (Step.startNext gsBoot 0))

/-- C4: when the first-move timeout fires for a live session with no move
    recorded: with nobody else waiting the window is merely renewed and the
    participant stays active; with somebody waiting the participant is marked
    done, nobody's creditsUsed changes, and the player-timeout event carries
    reason no_first_move; in the concrete A/B scenario B is activated next. -/
theorem claim_C4 (now : Nat) (gs : GameState) (s : Session)
    (hA : gs.active = some s) (hm : s.hasMoved = false) :
    ((listQueue gs.store).any (fun q => q.status = .waiting ∧ q.id ≠ s.donationId) = false →
       firstMoveTimerFire now gs
         = { gs with active := some { s with firstMoveDeadline := some (now + FIRST_MOVE_MS) } })
    ∧ ((listQueue gs.store).any (fun q => q.status = .waiting ∧ q.id ≠ s.donationId) = true →
       DoneAt (firstMoveTimerFire now gs).store s.donationId
       ∧ usedPairs (firstMoveTimerFire now gs).store = usedPairs gs.store
       ∧ (firstMoveTimerFire now gs).events = gs.events ++ [(s.donationId, "no_first_move")])
    ∧ (firstMoveTimerFire 15000 gsAB).store
        = [{ id := 1, creditsTotal := 2, creditsUsed := 0, creditsPulsed := true,
             status := .done },
           { id := 2, creditsTotal := 2, creditsUsed := 0, creditsPulsed := true,
             status := .active }]
    ∧ Option.map Session.donationId (firstMoveTimerFire 15000 gsAB).active = some 2
    ∧ (firstMoveTimerFire 15000 gsAB).events = [(1, "no_first_move")] := by
  refine ⟨?_, ?_, by decide, by decide, by decide⟩
  · intro hw
    unfold firstMoveTimerFire
    rw [hA]
    dsimp only
    rw [if_neg (by simp [hm]), if_neg (by simp only [hw]; decide)]
    unfold scheduleFirstMoveTimeout
    rw [hA]
  · intro hw
    unfold firstMoveTimerFire
    rw [hA]
    dsimp only
    rw [if_neg (by simp [hm]), if_pos hw]
    refine ⟨?_, ?_, ?_⟩
    · exact endActivePlayer_doneAt now gs s hA
    · exact endActivePlayer_usedPairs now gs
    · show (endActivePlayer now gs).events ++ [(s.donationId, "no_first_move")]
        = gs.events ++ [(s.donationId, "no_first_move")]
      rw [endActivePlayer_events]

theorem claim_C4_witness :
    firstMoveTimerFire 20000 gsSolo
      = { gsSolo with active := some { sSolo with
            firstMoveDeadline := some (20000 + FIRST_MOVE_MS) } } ∧
    DoneAt (firstMoveTimerFire 15000 gsAB).store sAB.donationId ∧
    usedPairs (firstMoveTimerFire 15000 gsAB).store = usedPairs gsAB.store ∧
    (firstMoveTimerFire 15000 gsAB).events = gsAB.events ++ [(sAB.donationId, "no_first_move")] :=
  ⟨(claim_C4 20000 gsSolo sSolo rfl rfl).1 (by decide),
   ((claim_C4 15000 gsAB sAB rfl rfl).2.1 (by decide)).1,
   ((claim_C4 15000 gsAB sAB rfl rfl).2.1 (by decide)).2.1,
   ((claim_C4 15000 gsAB sAB rfl rfl).2.1 (by decide)).2.2⟩

/-- C5: on activation maybeStartNext emits exactly one actuator pulse per
    remaining credit and sets creditsPulsed when the flag was unset, and emits
    no pulse when it was already set; a set flag survives every scheduler
    transition, so no later activation of that participant pulses again. -/
theorem claim_C5 (now : Nat) (gs : GameState) (next : Donation) (s t : GameState) (id : Nat)
    (hstep : Step s t) (hA : gs.active = none)
    (hfind : (listQueue (sweepZeroCredit gs.store)).find? (fun q => q.status = .waiting)
      = some next)
    (hrem : 0 < remainingOf next) :
    (maybeStartNext now gs).pulses
      = gs.pulses ++ (if next.creditsPulsed then [] else
          List.replicate (remainingOf next).toNat .credit)
    ∧ pulsedTrue next.id (maybeStartNext now gs).store
    ∧ (pulsedTrue id s.store → pulsedTrue id t.store) := by
  have hnm : next ∈ sweepZeroCredit gs.store :=
    (List.mem_filter.1 (List.mem_of_find?_eq_some hfind)).1
  by_cases hp : next.creditsPulsed = false ∧ 0 < remainingOf next
  · have hgo : maybeStartNextGo (countWaiting gs.store + 1) now gs.store =
        some (markCreditsPulsed
                (setDonationStatus (sweepZeroCredit gs.store) next.id .active) next.id,
              some (newSession next.id (remainingOf next) now),
              List.replicate (remainingOf next).toNat .credit) := by
      simp only [maybeStartNextGo]
      rw [hfind]
      dsimp only
      rw [if_neg (by omega), if_pos hp]
    have hstart : maybeStartNext now gs =
        { store := markCreditsPulsed
            (setDonationStatus (sweepZeroCredit gs.store) next.id .active) next.id,
          active := some (newSession next.id (remainingOf next) now),
          pulses := gs.pulses ++ List.replicate (remainingOf next).toNat .credit,
          events := gs.events } := by
      unfold maybeStartNext
      rw [hA, hgo]
    rw [hstart]
    refine ⟨?_, ?_, fun hpt => step_pulsed id hstep hpt⟩
    · rw [if_neg (by simp [hp.1])]
    · have hmem2 : ({ next with status := Status.active } : Donation)
          ∈ setDonationStatus (sweepZeroCredit gs.store) next.id .active := by
        refine List.mem_map.2 ⟨next, hnm, ?_⟩
        rw [if_pos rfl]
      exact pulsedTrue_markPulsed_self _ _ _ hmem2 rfl
  · have hpt : next.creditsPulsed = true := by
      rcases hb : next.creditsPulsed
      · exact absurd ⟨hb, hrem⟩ hp
      · rfl
    have hgo : maybeStartNextGo (countWaiting gs.store + 1) now gs.store =
        some (setDonationStatus (sweepZeroCredit gs.store) next.id .active,
              some (newSession next.id (remainingOf next) now),
              []) := by
      simp only [maybeStartNextGo]
      rw [hfind]
      dsimp only
      rw [if_neg (by omega), if_neg hp]
    have hstart : maybeStartNext now gs =
        { store := setDonationStatus (sweepZeroCredit gs.store) next.id .active,
          active := some (newSession next.id (remainingOf next) now),
          pulses := gs.pulses ++ [],
          events := gs.events } := by
      unfold maybeStartNext
      rw [hA, hgo]
    rw [hstart]
    refine ⟨?_, ?_, fun hpt2 => step_pulsed id hstep hpt2⟩
    · rw [if_pos hpt]
    · exact pulsedTrue_setStatus_of _ _ _ next hnm rfl hpt

theorem claim_C5_witness :
    (maybeStartNext 0 gsBoot).pulses
      = gsBoot.pulses ++ (if (false : Bool) then [] else List.replicate 2 Pulse.credit)
    ∧ pulsedTrue 1 (maybeStartNext 0 gsBoot).store
    ∧ (pulsedTrue 1 gsRun.store → pulsedTrue 1 (maybeStartNext 7 gsRun).store) :=
  claim_C5 0 gsBoot
    { id := 1, creditsTotal := 2, creditsUsed := 0, creditsPulsed := false,
      status := .waiting }
    gsRun (maybeStartNext 7 gsRun) 1 (Step.startNext gsRun 7) rfl (by decide) (by decide)

/-- C6: recoverAfterRestart demotes every active row to waiting and then sweeps
    zero-credit waiting rows to done: per participant, an active row ends done
    when out of credits and waiting otherwise, a zero-credit waiting row ends
    done, everything else is untouched; no active row survives (recovery is the
    base state of Reachable, before any activation); in particular a crashed
    active participant with no credits left ends done, not waiting. -/
theorem claim_C6 (store : Store) :
    recoverAfterRestart store
      = store.map (fun d =>
          if d.status = .active then
            (if remainingOf d ≤ 0 then { d with status := Status.done }
             else { d with status := Status.waiting })
          else if d.status = .waiting ∧ remainingOf d ≤ 0 then { d with status := Status.done }
          else d)
    ∧ (∀ d ∈ recoverAfterRestart store, d.status ≠ Status.active)
    ∧ recoverAfterRestart
        [{ id := 7, creditsTotal := 2, creditsUsed := 2, creditsPulsed := true,
           status := .active }]
        = [{ id := 7, creditsTotal := 2, creditsUsed := 2, creditsPulsed := true,
             status := .done }] := by
  refine ⟨?_, fun d hd => noActives_recover store d hd, by decide⟩
  unfold recoverAfterRestart sweepZeroCredit
  rw [List.map_map]
  congr 1
  funext d
  by_cases h1 : d.status = Status.active
  · by_cases h2 : remainingOf d ≤ 0 <;> simp [h1, h2, remainingOf]
  · by_cases h3 : d.status = Status.waiting <;> by_cases h2 : remainingOf d ≤ 0 <;>
      simp [h1, h2, h3, remainingOf]

theorem claim_C6_witness :
    recoverAfterRestart [(⟨1, 2, 1, false, .active⟩ : Donation)]
      = [(⟨1, 2, 1, false, .active⟩ : Donation)].map (fun d =>
          if d.status = .active then
            (if remainingOf d ≤ 0 then { d with status := Status.done }
             else { d with status := Status.waiting })
          else if d.status = .waiting ∧ remainingOf d ≤ 0 then { d with status := Status.done }
          else d)
    ∧ (⟨1, 2, 1, false, .waiting⟩ : Donation).status ≠ Status.active :=
  ⟨(claim_C6 [(⟨1, 2, 1, false, .active⟩ : Donation)]).1,
   (claim_C6 [(⟨1, 2, 1, false, .active⟩ : Donation)]).2.1
     (⟨1, 2, 1, false, .waiting⟩ : Donation) (by decide)⟩

/-- C7 counterexample: with no Active Session the grab handler returns the error
    string no_active (game.js line 298), not no_active_session as claimed. -/
theorem claim_C7_cex :
    (handleGrabIfAllowed 0 gsEmpty).2 = GrabRes.err "no_active" ∧
    GrabRes.err "no_active" ≠ GrabRes.err "no_active_session" := by
  exact ⟨rfl, by decide⟩

/-- C7 (amended): handleGrab rejects with error no_active when no Active Session
    exists and with grab_already_used when grabUsed is set this cycle; in both
    cases the entire state - every Active Session field, the store, the traces -
    is returned unchanged. -/
theorem claim_C7_amended (now : Nat) (gs : GameState) (s : Session) :
    (gs.active = none → handleGrabIfAllowed now gs = (gs, .err "no_active"))
    ∧ (gs.active = some s → s.grabUsed = true →
       handleGrabIfAllowed now gs = (gs, .err "grab_already_used")) := by
  constructor
  · intro h
    unfold handleGrabIfAllowed
    rw [h]
  · intro h hg
    unfold handleGrabIfAllowed
    rw [h]
    dsimp only
    rw [if_pos hg]

theorem claim_C7_witness :
    handleGrabIfAllowed 3 gsEmpty = (gsEmpty, .err "no_active") ∧
    handleGrabIfAllowed 3 gsGrabUsed = (gsGrabUsed, .err "grab_already_used") :=
  ⟨(claim_C7_amended 3 gsEmpty sStale).1 rfl,
   (claim_C7_amended 3 gsGrabUsed sGrabUsed).2 rfl rfl⟩

/-- C8 (code bug): game.js does not export forceEndActive, so the
    administratively exposed force-end always takes admin.js's fallback:
    evaluated on a live session it leaves the Active Session in place, clears
    no timer, issues no release-all and emits no pulse - it only writes status
    done to the store; the internal endActivePlayer (which the spec describes)
    would clear the session and call release-all. -/
theorem claim_C8_bug :
    (safeForceEndActive 0 gsC8).active = gsC8.active ∧
    (safeForceEndActive 0 gsC8).pulses = [] ∧
    (safeForceEndActive 0 gsC8).store
      = [{ id := 1, creditsTotal := 3, creditsUsed := 1, creditsPulsed := true,
           status := .done }] ∧
    (endActivePlayer 0 gsC8).active = none ∧
    (endActivePlayer 0 gsC8).pulses = [Pulse.releaseAll] := by
  decide

/-- C9: the persistence layer keeps 0 ≤ creditsUsed ≤ creditsTotal through
    useOneCredit, adjustCredits, setCreditsTotal and setCreditsUsed;
    incrementing at the cap leaves creditsUsed = creditsTotal; lowering the
    total clamps it to at least creditsUsed; setting used clamps into
    [0, creditsTotal]. -/
theorem claim_C9 (store : Store) (id : Nat) (delta v total : Int) (px : Bool) (st : Status)
    (h : CreditInv store) :
    CreditInv (useOneCredit store id)
    ∧ CreditInv (adjustCredits store id delta)
    ∧ CreditInv (setCreditsTotal store id v)
    ∧ CreditInv (setCreditsUsed store id v)
    ∧ useOneCredit [(⟨id, total, total, px, st⟩ : Donation)] id
        = [(⟨id, total, total, px, st⟩ : Donation)]
    ∧ (∀ d ∈ setCreditsTotal store id v, d.id = id → d.creditsUsed ≤ d.creditsTotal) := by
  refine ⟨?_, ?_, ?_, ?_, ?_, ?_⟩
  · refine creditInv_map _ _ ?_ h
    intro d hd
    by_cases hc : d.id = id
    · rw [if_pos hc]
      dsimp only
      constructor
      · split_ifs <;> omega
      · split_ifs <;> omega
    · rw [if_neg hc]
      exact hd
  · refine creditInv_map _ _ ?_ h
    intro d hd
    by_cases hc : d.id = id
    · rw [if_pos hc]
      dsimp only
      constructor
      · omega
      · omega
    · rw [if_neg hc]
      exact hd
  · refine creditInv_map _ _ ?_ h
    intro d hd
    by_cases hc : d.id = id
    · rw [if_pos hc]
      dsimp only
      constructor
      · omega
      · omega
    · rw [if_neg hc]
      exact hd
  · refine creditInv_map _ _ ?_ h
    intro d hd
    by_cases hc : d.id = id
    · rw [if_pos hc]
      dsimp only
      constructor
      · omega
      · omega
    · rw [if_neg hc]
      exact hd
  · unfold useOneCredit
    simp [show total + 1 > total from by omega]
  · intro d hd hdid
    obtain ⟨d0, hd0, rfl⟩ := List.mem_map.1 hd
    by_cases hc : d0.id = id
    · rw [if_pos hc]
      dsimp only
      omega
    · rw [if_neg hc] at hdid ⊢
      exact absurd hdid hc

theorem claim_C9_witness :
    CreditInv (useOneCredit [(⟨1, 3, 2, false, .waiting⟩ : Donation)] 1) ∧
    CreditInv (adjustCredits [(⟨1, 3, 2, false, .waiting⟩ : Donation)] 1 (-5)) ∧
    useOneCredit [(⟨1, 2, 2, false, .done⟩ : Donation)] 1
      = [(⟨1, 2, 2, false, .done⟩ : Donation)] :=
  ⟨(claim_C9 [(⟨1, 3, 2, false, .waiting⟩ : Donation)] 1 (-5) 0 2 false .done (by unfold CreditInv; decide)).1,
   (claim_C9 [(⟨1, 3, 2, false, .waiting⟩ : Donation)] 1 (-5) 0 2 false .done (by unfold CreditInv; decide)).2.1,
   (claim_C9 [(⟨1, 2, 2, false, .done⟩ : Donation)] 1 0 0 2 false .done (by unfold CreditInv; decide)).2.2.2.2.1⟩

/-- C10: the maybeStartNext scan terminates: with fuel exceeding the number of
    waiting rows the fuelled recursion always returns a result, because the
    self-recursive call is preceded by marking the zero-credit head row done,
    which strictly decreases the waiting count - so activation never loops, even
    if every waiting participant has zero credits. -/
theorem claim_C10 (now fuel : Nat) (store : Store) (h : countWaiting store < fuel) :
    (maybeStartNextGo fuel now store).isSome = true :=
  go_isSome fuel now store h

theorem claim_C10_witness :
    countWaiting
        [(⟨1, 0, 0, false, .waiting⟩ : Donation), (⟨2, 3, 3, false, .waiting⟩ : Donation)] < 3
    ∧ (maybeStartNextGo 3 0
        [(⟨1, 0, 0, false, .waiting⟩ : Donation),
         (⟨2, 3, 3, false, .waiting⟩ : Donation)]).isSome = true :=
  ⟨by decide,
   claim_C10 0 3
     [(⟨1, 0, 0, false, .waiting⟩ : Donation), (⟨2, 3, 3, false, .waiting⟩ : Donation)]
     (by decide)⟩

end SweetPi
